import Mathlib

/-! # CTF terminal client (`script.js`)

A shallow embedding of the browser script that drives the CTF terminal: the
session variables, the command interpreter, the interactive prompt slot, the
history buffer with its cursor, and the duration formatter.

Conventions of the embedding:

* the module-level `let` variables of the script, the two `localStorage` keys
  it uses and the DOM nodes it touches are fields of one `State` record;
* an `async` handler that suspends on `waitForInput` is cut at the suspension
  point: the part after the `await` is the function run by the stored
  callback (`Callback`), so a handler is a chain of state transformers;
* `fetch` is an oracle of the environment (`Env`): a handler that awaits a
  request receives either the decoded body or the message of the thrown
  error. The request and the continuation form one step: the handlers
  disable the input field while they wait, so no key event falls in between
  (`getHint` does not, and its continuation writes only the start time of
  the cached progress and the output);
* JavaScript numbers that hold millisecond counts, levels and ranks are
  natural numbers; the arithmetic of `formatDuration` is exact on them as it
  is on doubles below `2^53`;
* strings are sequences of Unicode scalar values.
-/

namespace CtfTerminal

/-! ## String primitives of the platform -/

/-- The code points `String.prototype.trim` removes: ECMAScript `WhiteSpace`
and `LineTerminator`. -/
def isJsWhiteSpace (c : Char) : Bool :=
  c.toNat = 0x09 || c.toNat = 0x0A || c.toNat = 0x0B || c.toNat = 0x0C || c.toNat = 0x0D ||
  c.toNat = 0x20 || c.toNat = 0xA0 || c.toNat = 0x1680 ||
  (0x2000 ≤ c.toNat && c.toNat ≤ 0x200A) ||
  c.toNat = 0x2028 || c.toNat = 0x2029 || c.toNat = 0x202F || c.toNat = 0x205F ||
  c.toNat = 0x3000 || c.toNat = 0xFEFF

/-- Characters of `s.trim()`. -/
def trimChars (cs : List Char) : List Char :=
  ((cs.dropWhile isJsWhiteSpace).reverse.dropWhile isJsWhiteSpace).reverse

/-- `s.trim()`. -/
def trim (s : String) : String :=
  String.mk (trimChars s.data)

/-- Splitting of a character list at every single space, the pieces of
`s.split(" ")`: `cur` holds the piece being read, reversed. -/
def splitSpaceAux : List Char → List Char → List String
  | [], cur => [String.mk cur.reverse]
  | c :: cs, cur =>
    if c = ' ' then String.mk cur.reverse :: splitSpaceAux cs []
    else splitSpaceAux cs (c :: cur)

/-- `s.split(" ")`. -/
def splitSpace (s : String) : List String :=
  splitSpaceAux s.data []

/-- Lower-case mapping of one character, exact on whether the result is an
ASCII letter: `A`..`Z` and the Kelvin sign U+212A are the only characters
other than `a`..`z` that `toLowerCase` sends to an ASCII letter. Every other
character is kept, which `toLowerCase` may change, but never into ASCII. -/
def lowerChar (c : Char) : Char :=
  if c.toNat = 0x212A then 'k' else c.toLower

/-- `s.toLowerCase()`, used by the script only to compare against the ASCII
command names; on that comparison this definition agrees with the platform. -/
def toLowerCase (s : String) : String :=
  String.mk (s.data.map lowerChar)

/-- `s.padStart(targetLength, padString)` for a one-character `padString`. -/
def padStart (s : String) (targetLength : Nat) (pad : Char) : String :=
  if targetLength ≤ s.length then s
  else String.mk (List.replicate (targetLength - s.length) pad) ++ s

/-- `s.padEnd(targetLength)`, padding with spaces. -/
def padEnd (s : String) (targetLength : Nat) : String :=
  if targetLength ≤ s.length then s
  else s ++ String.mk (List.replicate (targetLength - s.length) ' ')

/-- `String(n)` for a non-negative integer number. -/
def numToString (n : Nat) : String :=
  Nat.repr n

/-! ## `formatDuration` -/

/-- `formatDuration(duration)` for a non-negative integer `duration`. -/
def formatDuration (duration : Nat) : String :=
  let hours := duration / 3600000
  let minutes := (duration % 3600000) / 60000
  let seconds := (duration % 60000) / 1000
  padStart (numToString hours) 2 '0' ++ ":" ++ padStart (numToString minutes) 2 '0' ++ ":" ++
    padStart (numToString seconds) 2 '0'

/-- `formatDuration(duration)` as the script calls it on an optional response
field: on `undefined` every `Math.floor` is `NaN`, and `"NaN"` is already
three characters long. -/
def formatDurationField : Option Nat → String
  | some d => formatDuration d
  | none => "NaN:NaN:NaN"

/-! ## `JSON.stringify` on an array of strings -/

/-- Two lower-case hexadecimal digits of a code below 256. -/
def hex2 (n : Nat) : String :=
  String.mk [Nat.digitChar (n / 16), Nat.digitChar (n % 16)]

/-- The JSON escape of one character inside a quoted string. -/
def jsonEscapeChar (c : Char) : String :=
  if c.toNat = 0x08 then "\\b"
  else if c.toNat = 0x09 then "\\t"
  else if c.toNat = 0x0A then "\\n"
  else if c.toNat = 0x0C then "\\f"
  else if c.toNat = 0x0D then "\\r"
  else if c = '"' then "\\\""
  else if c = '\\' then "\\\\"
  else if c.toNat < 0x20 then "\\u00" ++ hex2 c.toNat
  else String.singleton c

/-- `JSON.stringify(s)` for a string. -/
def jsonQuote (s : String) : String :=
  "\"" ++ String.join (s.data.map jsonEscapeChar) ++ "\""

/-- `JSON.stringify(xs)` for an array of strings. -/
def jsonStringify (xs : List String) : String :=
  "[" ++ String.intercalate "," (xs.map jsonQuote) ++ "]"

/-- One element of a parsed JSON array, as far as the script inspects it. -/
inductive JsonItem where
  | str (s : String)
  | other
  deriving DecidableEq, Repr

/-- A value returned by `JSON.parse`, as far as the script inspects it. -/
inductive JsonValue where
  | array (items : List JsonItem)
  | other
  deriving DecidableEq, Repr

/-! ## Data model -/

/-- The `User` typedef. -/
structure User where
  id : String
  name : String
  emailID : String
  branch : String
  year : String
  deriving DecidableEq, Repr

/-- The `CTFProgress` typedef. -/
structure CTFProgress where
  currLevel : Nat
  totalTimeTaken : Nat
  availableHints : Nat
  hintsUsed : List Nat
  currentQuestionStartTime : Option String
  deriving DecidableEq, Repr

/-- A child of the `output` element: a line made by `addOutput`, or the
wrapper holding the leaderboard table (header cells and body rows). -/
inductive Node where
  | line (text : String) (className : String)
  | table (header : List String) (rows : List (List String))
  deriving DecidableEq, Repr

/-- The two keys of `localStorage` the script reads and writes. -/
structure LocalStorage where
  token : Option String
  cmdHistory : Option String
  deriving DecidableEq, Repr

/-- The suspended rest of a handler, stored in `inputCallback` while it waits
for a line: the `resolve` of the promise the handler awaits. -/
inductive Callback where
  | loginEmail
  | loginPassword (email : String)
  | submitFlag
  deriving DecidableEq, Repr

/-- A call of `fetch`. -/
inductive Request where
  | getDetails (authorization : String)
  | postLogin (emailID : String) (password : String)
  | getQuestion (authorization : String)
  | getHint (authorization : String)
  | postCheckFlag (authorization : String) (flag : String)
  | getLeaderboard
  deriving DecidableEq, Repr

/-- The variables of the script, the storage keys and the DOM state it uses.
`requests`, `prompts` and `delivered` are traces kept for the statements:
the calls of `fetch`, the calls of `waitForInput` (by prompt label) and the
lines handed to a stored callback. -/
structure State where
  token : Option String
  isLoggedIn : Bool
  currentUser : Option User
  userProgress : Option CTFProgress
  awaitingInput : Bool
  inputCallback : Option Callback
  commandHistory : List String
  historyIndex : Int
  localStorage : LocalStorage
  output : List Node
  promptText : String
  inputValue : String
  inputType : String
  inputDisabled : Bool
  requests : List Request
  prompts : List String
  delivered : List String
  deriving DecidableEq, Repr

/-! ## Responses of the remote API -/

/-- Body of `POST /auth/login`. -/
structure LoginResponse where
  success : Bool
  token : String
  user : User
  message : String

/-- Body of `GET /auth/details`, with `response.ok`. -/
structure DetailsResponse where
  ok : Bool
  success : Bool
  user : User
  ctfProgress : CTFProgress
  message : String

/-- Body of `GET /ctf/question`. -/
structure QuestionResponse where
  success : Bool
  completed : Bool
  level : Nat
  story : Option String
  question : Option String
  link : Option String
  isFinalStory : Bool
  totalLevels : Option Nat
  totalTimeTaken : Option Nat
  message : String

/-- Body of `GET /ctf/hint`, with `response.ok`. -/
structure HintResponse where
  ok : Bool
  success : Bool
  completed : Bool
  message : String
  hint : Option String
  availableHints : Option Nat

/-- Body of `POST /ctf/check-flag`. -/
structure CheckFlagResponse where
  success : Bool
  completed : Bool
  isLastFlag : Bool
  message : String

/-- The `timeTakenFormatted` field of a leaderboard row. -/
structure TimeTaken where
  hours : Nat
  minutes : Nat
  seconds : Nat

/-- One row of the leaderboard. -/
structure LeaderboardEntry where
  rank : Nat
  name : String
  department : String
  year : String
  numberOfLevelsCompleted : Nat
  timeTakenFormatted : Option TimeTaken

/-- Body of `GET /ctf/leaderboard`. -/
structure LeaderboardResponse where
  success : Bool
  data : List LeaderboardEntry
  message : String

/-- What an awaited `fetch(...)` followed by `.json()` gives: the decoded
body, or the `message` of the error thrown. -/
abbrev Fetched (α : Type) := Except String α

/-- The world outside the script at one event: the clock, the server behind
each endpoint, `JSON.parse` (`none` when it throws) and the text of the
`TypeError` the engine raises when a property of `null` is assigned. -/
structure Env where
  now : String
  authDetails : String → Fetched DetailsResponse
  authLogin : String → String → Fetched LoginResponse
  ctfQuestion : String → Fetched QuestionResponse
  ctfHint : String → Fetched HintResponse
  ctfCheckFlag : String → String → Fetched CheckFlagResponse
  ctfLeaderboard : Fetched LeaderboardResponse
  jsonParse : String → Option JsonValue
  typeErrorMessage : String

/-- The `commands` table, in source order. -/
def commands : List (String × String) :=
  [("help", "Show available commands and their descriptions"),
   ("login", "Login with your Coding Club account"),
   ("whoami", "Display current user information"),
   ("task", "Get the current question (requires login)"),
   ("hint", "Get a hint for the current task (There is a 10m penalty!)"),
   ("submit", "Submit a flag (requires login)"),
   ("progress", "Your current progress"),
   ("leaderboard", "Display the CTF leaderboard"),
   ("banner", "Display the CTF banner"),
   ("clear", "Clear the terminal screen"),
   ("exit", "Logout from the current session")]

/-- The `banner` constant. -/
def banner : String :=
  "<span style=\"color: #1e1e1e;\">CC\x7bH1DD3N_1N_9LA1N_51GH7\x7d</span>"

/-- The state when the script has been loaded, over the storage left by
earlier visits. The prompt label and input type are those of the page. -/
def init (ls : LocalStorage) : State :=
  { token := none, isLoggedIn := false, currentUser := none, userProgress := none,
    awaitingInput := false, inputCallback := none, commandHistory := [], historyIndex := -1,
    localStorage := ls, output := [], promptText := "root@ctf:~$", inputValue := "",
    inputType := "text", inputDisabled := false, requests := [], prompts := [],
    delivered := [] }

/-! ## Small helpers of the script -/

/-- `logout()`. -/
def logout (s : State) : State :=
  { s with token := none, isLoggedIn := false, currentUser := none, userProgress := none,
           localStorage := { token := none, cmdHistory := none } }

/-- `addOutput(text, className)`. -/
def addOutput (text : String) (className : String) (s : State) : State :=
  { s with output := s.output ++ [Node.line text className] }

/-- `updatePrompt(text)`. -/
def updatePrompt (text : String) (s : State) : State :=
  { s with promptText := text }

/-- `waitForInput(callback, prompt)`. -/
def waitForInput (callback : Callback) (label : String) (s : State) : State :=
  updatePrompt label
    { s with awaitingInput := true, inputCallback := some callback,
             prompts := s.prompts ++ [label] }

/-- `showBanner()`. -/
def showBanner (s : State) : State :=
  addOutput "<b>Welcome to CTF Terminal!</b>" "info"
    (addOutput ("<pre class=\"ascii-art\">" ++ banner ++ "</pre>") "" s)

/-- The 60-character rule of `showHelp`. -/
def helpRule : String :=
  String.mk (List.replicate 60 '─')

/-- `showHelp()`. -/
def showHelp (s : State) : State :=
  let s := addOutput "\n<span class=\"info\">Available Commands:</span>" "" s
  let s := addOutput helpRule "" s
  let s := commands.foldl
    (fun acc entry =>
      addOutput ("  <span class=\"command\">" ++ padEnd entry.1 15 ++ "</span> - " ++ entry.2) "" acc)
    s
  addOutput (helpRule ++ "\n") "" s

/-- The `Authorization` header built from the `token` variable. -/
def bearer (token : Option String) : String :=
  "Bearer " ++ token.getD "null"

/-- Whether an optional string field of a response is truthy. -/
def truthy : Option String → Bool
  | some v => v ≠ ""
  | none => false

/-- Text of an optional number inside a template literal. -/
def numField : Option Nat → String
  | some n => numToString n
  | none => "undefined"

/-- The assignment `userProgress.currentQuestionStartTime = v`: `none` when
`userProgress` is `null` and the assignment throws a `TypeError`. -/
def setStartTime (v : Option String) (s : State) : Option State :=
  match s.userProgress with
  | some p => some { s with userProgress := some { p with currentQuestionStartTime := v } }
  | none => none

/-! ## `login` -/

/-- `handleLogin()` up to its first `await`: the guard, the invitation line
and the request for the email. -/
def handleLogin (s : State) : State :=
  if s.isLoggedIn then
    addOutput
      "Already logged in, please logout first using <span class='command'>exit</span> command"
      "error" s
  else
    waitForInput Callback.loginEmail "Email:"
      (addOutput
        "Login with your <a class='link' href='https://www.codingclubtkmce.in/login' target='_blank'>Coding Club</a> account:"
        "info" s)

/-- `handleLogin()` resumed with the email: the second promise switches the
input to password mode and requests the password. -/
def handleLoginEmail (email : String) (s : State) : State :=
  waitForInput (Callback.loginPassword email) "Password:" { s with inputType := "password" }

/-- `handleLogin()` resumed with the password: the request to `/auth/login`
and the handling of its outcome. -/
def handleLoginPassword (env : Env) (email : String) (password : String) (s : State) : State :=
  let s := { s with inputType := "text" }
  let s := updatePrompt "root@ctf:~$" s
  let s := { s with inputDisabled := true }
  let s := addOutput "Validating credentials...\n" "info" s
  let s := { s with requests := s.requests ++ [Request.postLogin email password] }
  let s :=
    match env.authLogin email password with
    | Except.ok data =>
      if data.success then
        let s := { s with localStorage := { s.localStorage with token := some data.token } }
        let s := { s with token := some data.token, isLoggedIn := true,
                          currentUser := some data.user }
        let s := addOutput "<span class=\"success\">✓ AUTHENTICATED</span>" "success" s
        addOutput "Type <span class=\"command\">\"help\"</span> to view available commands\n" "info" s
      else
        addOutput ("<span class=\"error\">✗ " ++ data.message ++ "</span>\n") "error" s
    | Except.error msg =>
      addOutput ("<span class=\"error\">✗ Login failed: " ++ msg ++ "</span>\n") "error" s
  { s with inputDisabled := false }

/-! ## `task` -/

/-- The `catch` block of `startChallenge`. -/
def startChallengeCatch (msg : String) (s : State) : State :=
  addOutput ("<span class=\"error\">✗ Failed to fetch question: " ++ msg ++ "</span>\n") "error" s

/-- The lines of an open question, after the start time has been stored. -/
def showQuestion (data : QuestionResponse) (s : State) : State :=
  let s := addOutput ("<span class=\"info\">[Question " ++ numToString data.level ++ "]</span>") "info" s
  let s := if truthy data.story then
      addOutput ("<div class=\"story\">" ++ data.story.getD "" ++ "</div>") "" s else s
  let s := if truthy data.question then
      addOutput ("<div class=\"question\">" ++ data.question.getD "" ++ "</div>") "" s else s
  let s := if truthy data.link then
      addOutput ("<div>Download: <a href=\"" ++ data.link.getD "" ++
        "\" target=\"_blank\" class=\"link\">\x7bClick Here\x7d</a></div>") "" s else s
  if data.isFinalStory then
    let s := addOutput "\nCongratulations! You've completed all challenges!" "success" s
    addOutput ("Time taken: " ++ formatDurationField data.totalTimeTaken ++ "\n") "info" s
  else
    addOutput "" "" s

/-- `startChallenge()`. -/
def startChallenge (env : Env) (s : State) : State :=
  if !s.isLoggedIn then
    addOutput "✗ Please login first using the <span class=\"command\">login</span> command.\n"
      "error" s
  else
    let s := { s with inputDisabled := true }
    let s := addOutput "Fetching task from server...\n" "info" s
    let s := { s with requests := s.requests ++ [Request.getQuestion (bearer s.token)] }
    let s :=
      match env.ctfQuestion (bearer s.token) with
      | Except.ok data =>
        if data.success then
          if data.completed then
            let s := addOutput ("\n<span class=\"success\">🎉 " ++ data.message ++ "</span>") "success" s
            let s := addOutput ("Total Levels: " ++ numField data.totalLevels) "info" s
            let s := addOutput ("Time: " ++ formatDurationField data.totalTimeTaken ++ "\n") "info" s
            match setStartTime none s with
            | some s1 => s1
            | none => startChallengeCatch env.typeErrorMessage s
          else
            match setStartTime (some env.now) s with
            | some s1 => showQuestion data s1
            | none => startChallengeCatch env.typeErrorMessage s
        else
          addOutput ("<span class=\"error\">✗ " ++ data.message ++ "</span>\n") "error" s
      | Except.error msg => startChallengeCatch msg s
    { s with inputDisabled := false }

/-! ## `hint` -/

/-- The `catch` block of `getHint`. -/
def getHintCatch (msg : String) (s : State) : State :=
  addOutput ("Error: " ++ msg) "error" s

/-- The lines after a hint response that leaves the task open. -/
def showHint (data : HintResponse) (s : State) : State :=
  let s := if truthy data.hint then
      addOutput "" "" (addOutput (data.hint.getD "") ""
        (addOutput "Hint for the current question:" "info" s))
    else s
  match data.availableHints with
  | some n =>
    if n > 0 then addOutput ("You have " ++ numToString n ++ " more hints.") "info" s
    else addOutput "You have no more hints left!" "error" s
  | none => addOutput "You have no more hints left!" "error" s

/-- `getHint()`. -/
def getHint (env : Env) (s : State) : State :=
  if !s.isLoggedIn then
    addOutput "✗ Please login first using the <span class=\"command\">login</span> command.\n"
      "error" s
  else
    let s := { s with requests := s.requests ++ [Request.getHint (bearer s.token)] }
    match env.ctfHint (bearer s.token) with
    | Except.ok data =>
      if data.ok && data.success then
        if data.completed then
          let s := addOutput data.message "success" s
          match setStartTime none s with
          | some s1 => s1
          | none => getHintCatch env.typeErrorMessage s
        else
          let s := addOutput data.message "success" s
          match setStartTime (some env.now) s with
          | some s1 => showHint data s1
          | none => getHintCatch env.typeErrorMessage s
      else
        let s := addOutput data.message "error" s
        if data.message = "You are not currently solving a task." then
          match setStartTime none s with
          | some s1 => s1
          | none => getHintCatch env.typeErrorMessage s
        else s
    | Except.error msg => getHintCatch msg s

/-! ## `submit` -/

/-- `submitCommand()` up to its `await`: the two guards and the request for
the flag. -/
def submitCommand (s : State) : State :=
  match s.isLoggedIn, s.userProgress with
  | true, some progress =>
    if progress.currentQuestionStartTime = none then
      addOutput "You are not currently solving a task" "error" s
    else
      waitForInput Callback.submitFlag "Submit flag:" s
  | _, _ => addOutput "<span class=\"error\">✗ Please login first.</span>\n" "error" s

/-- The `catch` block of `submitCommand`. -/
def submitCommandCatch (msg : String) (s : State) : State :=
  addOutput ("<span class=\"error\">✗ Failed to submit flag: " ++ msg ++ "</span>\n") "error" s

/-- The body of the `if (data.success)` branch of `submitCommand`: `Sum.inl`
when it completes, `Sum.inr` with the state at the throw when an assignment
to `userProgress` raises a `TypeError`. -/
def submitAccepted (data : CheckFlagResponse) (s : State) : State ⊕ State :=
  let s := addOutput "✓ Correct flag!\n" "success" s
  match setStartTime none s with
  | none => Sum.inr s
  | some s =>
    if !data.completed && !data.isLastFlag then
      Sum.inl (addOutput "Type <span class=\"command\">task</span> for next task!\n" "info" s)
    else if data.isLastFlag then
      match setStartTime none s with
      | none => Sum.inr s
      | some s =>
        Sum.inl (addOutput "Type <span class=\"command\">task</span> to see the final story!\n"
          "info" s)
    else Sum.inl s

/-- `submitCommand()` resumed with the flag. -/
def submitCommandFlag (env : Env) (flag : String) (s : State) : State :=
  let s := updatePrompt "root@ctf:~$" s
  if flag = "" ∨ trim flag = "" then
    addOutput "<span class=\"error\">✗ Flag cannot be empty</span>\n" "error" s
  else
    let s := { s with inputDisabled := true }
    let s := { s with
      requests := s.requests ++ [Request.postCheckFlag (bearer s.token) (trim flag)] }
    let s :=
      match env.ctfCheckFlag (bearer s.token) (trim flag) with
      | Except.ok data =>
        if data.success then
          match submitAccepted data s with
          | Sum.inl s1 => s1
          | Sum.inr s1 => submitCommandCatch env.typeErrorMessage s1
        else
          addOutput ("<span class=\"error\">✗ " ++ data.message ++ "</span>\n") "error" s
      | Except.error msg => submitCommandCatch msg s
    { s with inputDisabled := false }

/-! ## `progress`, `leaderboard`, `whoami` -/

/-- `getProgress()`. -/
def getProgress (env : Env) (s : State) : State :=
  if !s.isLoggedIn then
    addOutput "✗ Please login first using the <span class=\"command\">login</span> command.\n"
      "error" s
  else
    let s := { s with inputDisabled := true }
    let s := { s with requests := s.requests ++ [Request.getDetails (bearer s.token)] }
    let s :=
      match env.authDetails (bearer s.token) with
      | Except.ok data =>
        if data.ok && data.success then
          let s := { s with userProgress := some data.ctfProgress }
          let s := addOutput ("<b>Current level</b>: " ++ numToString data.ctfProgress.currLevel) "" s
          let s := addOutput
            ("<b>Total time taken</b>: " ++ formatDuration data.ctfProgress.totalTimeTaken) "" s
          addOutput
            ("<b>Available hints</b>: " ++ numToString data.ctfProgress.availableHints ++ " / 3") "" s
        else
          addOutput data.message "error" s
      | Except.error msg => addOutput ("Error: " ++ msg) "error" s
    { s with inputDisabled := false }

/-- The header cells of the leaderboard table. -/
def leaderboardHeader : List String :=
  ["Rank", "Name", "Branch", "Year", "Questions Solved", "Time Taken"]

/-- The cells of one leaderboard row. -/
def leaderboardRow (user : LeaderboardEntry) : List String :=
  let time :=
    match user.timeTakenFormatted with
    | some t =>
      padStart (numToString t.hours) 2 '0' ++ ":" ++ padStart (numToString t.minutes) 2 '0' ++
        ":" ++ padStart (numToString t.seconds) 2 '0'
    | none => "N/A"
  [numToString user.rank, user.name, user.department, user.year,
   numToString user.numberOfLevelsCompleted, time]

/-- `showLeaderboard()`. -/
def showLeaderboard (env : Env) (s : State) : State :=
  let s := { s with inputDisabled := true }
  let s := { s with requests := s.requests ++ [Request.getLeaderboard] }
  let s :=
    match env.ctfLeaderboard with
    | Except.ok data =>
      if data.success then
        let s := addOutput "\n<span class=\"info\">═══ CTF Leaderboard ═══</span>" "info" s
        if data.data.length = 0 then
          addOutput "No participants yet.\n" "info" s
        else
          let s := { s with
            output := s.output ++ [Node.table leaderboardHeader (data.data.map leaderboardRow)] }
          addOutput "" "" s
      else
        addOutput ("<span class=\"error\">✗ " ++ data.message ++ "</span>\n") "error" s
    | Except.error msg =>
      addOutput ("<span class=\"error\">✗ Failed to fetch leaderboard: " ++ msg ++ "</span>\n")
        "error" s
  { s with inputDisabled := false }

/-- `whoami()`. With `currentUser` null behind `isLoggedIn` the first property
read throws out of the handler before any line is added. -/
def whoami (s : State) : State :=
  if !s.isLoggedIn then
    addOutput
      "<span class=\"error\">✗ Not logged in. Use <span class=\"command\">login</span> command.</span>\n"
      "error" s
  else
    match s.currentUser with
    | some user =>
      let s := addOutput ("Name: <b>" ++ user.name ++ "</b>") "info" s
      let s := addOutput ("Email: <b>" ++ user.emailID ++ "</b>") "info" s
      let s := addOutput ("Branch: <b>" ++ user.branch ++ "</b>") "info" s
      addOutput ("Year: <b>" ++ user.year ++ "</b>\n") "info" s
    | none => s

/-! ## The command interpreter -/

/-- `xs.slice(start)`: a negative `start` counts from the end. -/
def slice (xs : List String) (start : Int) : List String :=
  if start < 0 then xs.drop (Int.toNat (xs.length + start))
  else xs.drop (min start.toNat xs.length)

/-- The `command` of `const [command, ...args] = cmd.trim().split(" ")`. -/
def commandOf (cmd : String) : String :=
  (splitSpace (trim cmd)).headD ""

/-- The line `handleCommand` writes first: the prompt and the typed text. -/
def echoLine (cmd : String) : Node :=
  Node.line ("<span class=\"prompt\">root@ctf:~$</span> <span class=\"command\">" ++ cmd ++ "</span>") ""

/-- The first half of `handleCommand(cmd)`, up to the `switch`: the echo, the
history update, the cursor reset and the write of the history to storage. -/
def recordCommand (cmd : String) (s : State) : State :=
  let s := { s with output := s.output ++ [echoLine cmd] }
  let s :=
    if trim cmd ≠ "" ∧
        (s.commandHistory.length = 0 ∨ s.commandHistory[s.commandHistory.length - 1]? ≠ some cmd)
    then { s with commandHistory := s.commandHistory ++ [cmd] }
    else s
  let s := { s with historyIndex := (s.commandHistory.length : Int) }
  { s with localStorage :=
      { s.localStorage with cmdHistory := some (jsonStringify (slice s.commandHistory (-20))) } }

/-- The `switch` of `handleCommand` on the lower-cased command name. -/
def dispatch (env : Env) (command : String) (s : State) : State :=
  let name := toLowerCase command
  if name = "help" then showHelp s
  else if name = "login" then handleLogin s
  else if name = "task" then startChallenge env s
  else if name = "hint" then getHint env s
  else if name = "submit" then submitCommand s
  else if name = "leaderboard" then showLeaderboard env s
  else if name = "whoami" then whoami s
  else if name = "progress" then getProgress env s
  else if name = "clear" then { s with output := [] }
  else if name = "banner" then showBanner s
  else if name = "exit" then
    if s.isLoggedIn then
      let s := logout s
      let s := { s with output := [] }
      addOutput "<span class=\"success\">✓ Logged out successfully.</span>\n" "success" s
    else
      addOutput "<span class=\"error\">✗ Not logged in.</span>\n" "error" s
  else if name = "" then s
  else if name = "about" then
    let s := addOutput "<b>BitBlitz OS v1.729</b>" "info" s
    addOutput
      "Credits: Claude, ChatGPT, Alan Saji, Swassy, <a href='https://github.com/aswan-a' target='_blank'>Aswan</a> and <a href='https://github.com/dcdunkan' target='_blank'>Dunks</a>!"
      "" s
  else
    let s := addOutput ("<span class=\"error\">Command not found: " ++ command ++ "</span>") "error" s
    addOutput "Type <span class=\"command\">help</span> for available commands.\n" "info" s

/-- `handleCommand(cmd)`. -/
def handleCommand (env : Env) (cmd : String) (s : State) : State :=
  dispatch env (commandOf cmd) (recordCommand cmd s)

/-! ## The keyboard handler -/

/-- The array read `xs[i]`: `none` is `undefined`. -/
def arrayGet (xs : List String) (i : Int) : Option String :=
  if i < 0 then none else xs[i.toNat]?

/-- The assignment `input.value = v` of an array read: `undefined` is
converted to the text `"undefined"`. -/
def inputValueOf : Option String → String
  | some v => v
  | none => "undefined"

/-- The `ArrowUp` branch of the keydown handler. -/
def arrowUp (s : State) : State :=
  if s.commandHistory.length > 0 ∧ s.historyIndex > 0 then
    let s := { s with historyIndex := s.historyIndex - 1 }
    { s with inputValue := inputValueOf (arrayGet s.commandHistory s.historyIndex) }
  else s

/-- The `ArrowDown` branch of the keydown handler. -/
def arrowDown (s : State) : State :=
  if s.historyIndex < (s.commandHistory.length : Int) - 1 then
    let s := { s with historyIndex := s.historyIndex + 1 }
    { s with inputValue := inputValueOf (arrayGet s.commandHistory s.historyIndex) }
  else
    { s with historyIndex := (s.commandHistory.length : Int), inputValue := "" }

/-- The call `callback(cmd)` of a stored callback: the handler that awaits
the promise resumes with the line. -/
def runCallback (env : Env) (callback : Callback) (line : String) (s : State) : State :=
  let s := { s with delivered := s.delivered ++ [line] }
  match callback with
  | Callback.loginEmail => handleLoginEmail line s
  | Callback.loginPassword email => handleLoginPassword env email line s
  | Callback.submitFlag => submitCommandFlag env line s

/-- The `Enter` branch of the keydown handler. -/
def enter (env : Env) (s : State) : State :=
  let cmd := s.inputValue
  let s := { s with inputValue := "" }
  match s.awaitingInput, s.inputCallback with
  | true, some callback =>
    let s := { s with awaitingInput := false }
    let s := { s with inputCallback := none }
    runCallback env callback cmd s
  | _, _ => handleCommand env cmd s

/-! ## Startup -/

/-- The `length` of a string in UTF-16 code units. -/
def utf16Length (s : String) : Nat :=
  (s.data.map (fun c => if c.toNat < 0x10000 then 1 else 2)).sum

/-- The filter applied to a parsed history array. -/
def storedEntries : List JsonItem → List String
  | [] => []
  | JsonItem.str v :: rest => if v ≠ "" then v :: storedEntries rest else storedEntries rest
  | JsonItem.other :: rest => storedEntries rest

/-- The block of the startup handler that restores the command history. -/
def restoreHistory (env : Env) (s : State) : State :=
  match s.localStorage.cmdHistory with
  | some stored =>
    if utf16Length stored ≥ 2 then
      match env.jsonParse stored with
      | some (JsonValue.array parsed) =>
        let s := { s with commandHistory := storedEntries parsed }
        { s with historyIndex := (s.commandHistory.length : Int) }
      | _ => s
    else s
  | none => s

/-- The two lines shown when the startup authentication fails. -/
def authFailedLines (s : State) : State :=
  addOutput "Type <span class=\"command\">'login'</span> to authenticate\n" "info"
    (addOutput "Something went wrong while authenticating :(" "error" s)

/-- The `DOMContentLoaded` handler. -/
def domContentLoaded (env : Env) (s : State) : State :=
  let s := showBanner s
  match s.localStorage.token with
  | some storedToken =>
    if storedToken ≠ "" then
      let s := addOutput "Authenticating..." "" s
      let s := { s with inputDisabled := true }
      let s := { s with requests := s.requests ++ [Request.getDetails ("Bearer " ++ storedToken)] }
      let s :=
        match env.authDetails ("Bearer " ++ storedToken) with
        | Except.ok data =>
          if data.ok && data.success then
            let s := { s with token := some storedToken, isLoggedIn := true,
                              currentUser := some data.user,
                              userProgress := some data.ctfProgress }
            let s := addOutput ("Logged in as <b>" ++ data.user.emailID ++ "</b>") "success" s
            restoreHistory env s
          else
            authFailedLines (logout s)
        | Except.error msg =>
          let s := if msg ≠ "" then addOutput ("Error: " ++ msg) "error" s else s
          authFailedLines s
      { s with inputDisabled := false }
    else
      addOutput "Type <span class=\"command\">'login'</span> to begin\n" "info" (logout s)
  | none =>
    addOutput "Type <span class=\"command\">'login'</span> to begin\n" "info" (logout s)

/-! ## Events and reachable states -/

/-- The events the script handles: page load, the three keys of the keydown
handler, and an edit of the input field by the user. -/
inductive Event where
  | domContentLoaded
  | arrowUp
  | arrowDown
  | enter
  | typed (text : String)

/-- One event, handled to completion. -/
def step (env : Env) (e : Event) (s : State) : State :=
  match e with
  | Event.domContentLoaded => domContentLoaded env s
  | Event.arrowUp => arrowUp s
  | Event.arrowDown => arrowDown s
  | Event.enter => enter env s
  | Event.typed text => { s with inputValue := text }

/-- The states of the program: the state at load over any storage, and every
state an event leads to, in any environment. -/
inductive Reachable : State → Prop where
  | init (ls : LocalStorage) : Reachable (init ls)
  | step (env : Env) (e : Event) (s : State) : Reachable s → Reachable (step env e s)

/-- A run of events from a state, each in its own environment. -/
def run (evs : List (Env × Event)) (s : State) : State :=
  evs.foldl (fun acc ev => step ev.1 ev.2 acc) s

/-- Dispatch of a list of lines, one `handleCommand` each, every one in its
own environment. -/
def dispatchAll (cmds : List (Env × String)) (s : State) : State :=
  cmds.foldl (fun acc c => handleCommand c.1 c.2 acc) s

/-! ## Vocabulary of the statements -/

/-- The command names the `switch` of `handleCommand` has a handler for. -/
def recognizedNames : List String :=
  ["help", "login", "whoami", "task", "hint", "submit", "progress", "leaderboard", "banner",
   "clear", "exit", "about"]

/-- What no handler other than the interpreter itself writes: the history,
its cursor, the stored history and the trace of delivered lines; and the
handler keeps the link between a cached progress and the login flag. -/
def Frame (s t : State) : Prop :=
  t.commandHistory = s.commandHistory ∧ t.historyIndex = s.historyIndex ∧
  t.localStorage.cmdHistory = s.localStorage.cmdHistory ∧ t.delivered = s.delivered ∧
  ((s.userProgress.isSome = true → s.isLoggedIn = true) →
    (t.userProgress.isSome = true → t.isLoggedIn = true))

/-- The range of the history cursor: `-1` over an empty history, as the
script initialises it, or a position from `0` to the length. -/
def CursorInRange (s : State) : Prop :=
  (s.historyIndex = -1 ∧ s.commandHistory = []) ∨
  (0 ≤ s.historyIndex ∧ s.historyIndex ≤ (s.commandHistory.length : Int))

/-- Whether a node is a line carrying a style class, which the echo of a
command never is. -/
def isStyled : Node → Bool
  | Node.line _ className => className ≠ ""
  | Node.table _ _ => false

/-- The second state shows the output of the first followed by styled lines
only. -/
def AddsStyled (s t : State) : Prop :=
  ∃ added, t.output = s.output ++ added ∧ ∀ n ∈ added, isStyled n = true

/-! ## Sample environments -/

/-- The text V8 gives the `TypeError` of an assignment to a property of
`null`. -/
def v8TypeError : String :=
  "Cannot set properties of null (setting 'currentQuestionStartTime')"

/-- A player. -/
def sampleUser : User :=
  { id := "u1", name := "Ada", emailID := "ada@example.org", branch := "CSE", year := "2" }

/-- The progress of a player with no task open. -/
def sampleProgress : CTFProgress :=
  { currLevel := 1, totalTimeTaken := 0, availableHints := 3, hintsUsed := [],
    currentQuestionStartTime := none }

/-- An environment without network: every request throws. -/
def offlineEnv : Env :=
  { now := "2025-01-01T00:00:00.000Z",
    authDetails := fun _ => Except.error "Failed to fetch",
    authLogin := fun _ _ => Except.error "Failed to fetch",
    ctfQuestion := fun _ => Except.error "Failed to fetch",
    ctfHint := fun _ => Except.error "Failed to fetch",
    ctfCheckFlag := fun _ _ => Except.error "Failed to fetch",
    ctfLeaderboard := Except.error "Failed to fetch",
    jsonParse := fun _ => none,
    typeErrorMessage := v8TypeError }

/-- An environment whose server accepts every login and every flag, knows the
player of `sampleUser` and serves question 1. -/
def serverEnv : Env :=
  { now := "2025-01-01T00:00:00.000Z",
    authDetails := fun _ =>
      Except.ok { ok := true, success := true, user := sampleUser, ctfProgress := sampleProgress,
                  message := "" },
    authLogin := fun _ _ =>
      Except.ok { success := true, token := "tok", user := sampleUser, message := "" },
    ctfQuestion := fun _ =>
      Except.ok { success := true, completed := false, level := 1, story := none,
                  question := some "What is hidden in plain sight?", link := none,
                  isFinalStory := false, totalLevels := none, totalTimeTaken := none,
                  message := "" },
    ctfHint := fun _ =>
      Except.ok { ok := true, success := true, completed := false, message := "Hint unlocked",
                  hint := some "Look at the banner", availableHints := some 2 },
    ctfCheckFlag := fun _ _ =>
      Except.ok { success := true, completed := false, isLastFlag := false, message := "" },
    ctfLeaderboard := Except.ok { success := true, data := [], message := "" },
    jsonParse := fun _ => none,
    typeErrorMessage := v8TypeError }

/-- The state after a page load that found a stored token and could not
reach the server: the session is anonymous and the token stays in storage. -/
def staleTokenState : State :=
  domContentLoaded offlineEnv (init { token := some "tok", cmdHistory := none })

/-- The state after a page load that found a stored token the server
accepted. -/
def resumedState : State :=
  domContentLoaded serverEnv (init { token := some "tok", cmdHistory := none })

/-- The state after the `login` command has been typed on a fresh page and
the server has accepted the credentials typed at its two prompts. -/
def freshLoginState : State :=
  run [(serverEnv, Event.typed "login"), (serverEnv, Event.enter),
       (serverEnv, Event.typed "ada@example.org"), (serverEnv, Event.enter),
       (serverEnv, Event.typed "hunter2"), (serverEnv, Event.enter)]
    (init { token := none, cmdHistory := none })

/-- An environment whose server rejects every login. -/
def rejectingEnv : Env :=
  { offlineEnv with
    authLogin := fun _ _ =>
      Except.ok { success := false, token := "", user := sampleUser,
                  message := "Invalid credentials" } }

/-- The history of 21 entries `c1` .. `c21`. -/
def twentyOne : List String :=
  (List.range 21).map (fun i => "c" ++ numToString (i + 1))

/-! # Theorems -/

/-! ## `formatDuration` -/

theorem Frame.refl (s : State) : Frame s s := ⟨rfl, rfl, rfl, rfl, id⟩

theorem Frame.trans {a b c : State} (h1 : Frame a b) (h2 : Frame b c) : Frame a c :=
  ⟨h2.1.trans h1.1, h2.2.1.trans h1.2.1, h2.2.2.1.trans h1.2.2.1, h2.2.2.2.1.trans h1.2.2.2.1,
    fun h => h2.2.2.2.2 (h1.2.2.2.2 h)⟩

theorem frame_addOutput (a b : String) (s : State) : Frame s (addOutput a b s) :=
  ⟨rfl, rfl, rfl, rfl, id⟩

theorem frame_showBanner (s : State) : Frame s (showBanner s) :=
  ⟨rfl, rfl, rfl, rfl, id⟩

theorem frame_showHelp (s : State) : Frame s (showHelp s) := by
  simp [Frame, showHelp, addOutput, commands]

theorem frame_handleLogin (s : State) : Frame s (handleLogin s) := by
  unfold handleLogin
  split
  · exact frame_addOutput _ _ _
  · exact ⟨rfl, rfl, rfl, rfl, id⟩

theorem frame_handleLoginEmail (email : String) (s : State) :
    Frame s (handleLoginEmail email s) :=
  ⟨rfl, rfl, rfl, rfl, id⟩

theorem frame_handleLoginPassword (env : Env) (email password : String) (s : State) :
    Frame s (handleLoginPassword env email password s) := by
  unfold handleLoginPassword
  cases hf : env.authLogin email password with
  | error msg => exact ⟨rfl, rfl, rfl, rfl, id⟩
  | ok data =>
    cases hs : data.success
    · simp [Frame, addOutput, updatePrompt, hs]
    · simp [Frame, addOutput, updatePrompt, hs]

theorem showQuestion_commandHistory (data : QuestionResponse) (s : State) :
    (showQuestion data s).commandHistory = s.commandHistory := by
  unfold showQuestion
  simp only [addOutput, apply_ite State.commandHistory, ite_self]

theorem showQuestion_historyIndex (data : QuestionResponse) (s : State) :
    (showQuestion data s).historyIndex = s.historyIndex := by
  unfold showQuestion
  simp only [addOutput, apply_ite State.historyIndex, ite_self]

theorem showQuestion_localStorage (data : QuestionResponse) (s : State) :
    (showQuestion data s).localStorage = s.localStorage := by
  unfold showQuestion
  simp only [addOutput, apply_ite State.localStorage, ite_self]

theorem showQuestion_delivered (data : QuestionResponse) (s : State) :
    (showQuestion data s).delivered = s.delivered := by
  unfold showQuestion
  simp only [addOutput, apply_ite State.delivered, ite_self]

theorem showQuestion_userProgress (data : QuestionResponse) (s : State) :
    (showQuestion data s).userProgress = s.userProgress := by
  unfold showQuestion
  simp only [addOutput, apply_ite State.userProgress, ite_self]

theorem showQuestion_isLoggedIn (data : QuestionResponse) (s : State) :
    (showQuestion data s).isLoggedIn = s.isLoggedIn := by
  unfold showQuestion
  simp only [addOutput, apply_ite State.isLoggedIn, ite_self]

theorem showHint_commandHistory (data : HintResponse) (s : State) :
    (showHint data s).commandHistory = s.commandHistory := by
  unfold showHint
  cases data.availableHints <;>
  simp only [addOutput, apply_ite State.commandHistory, ite_self]

theorem showHint_historyIndex (data : HintResponse) (s : State) :
    (showHint data s).historyIndex = s.historyIndex := by
  unfold showHint
  cases data.availableHints <;>
  simp only [addOutput, apply_ite State.historyIndex, ite_self]

theorem showHint_localStorage (data : HintResponse) (s : State) :
    (showHint data s).localStorage = s.localStorage := by
  unfold showHint
  cases data.availableHints <;>
  simp only [addOutput, apply_ite State.localStorage, ite_self]

theorem showHint_delivered (data : HintResponse) (s : State) :
    (showHint data s).delivered = s.delivered := by
  unfold showHint
  cases data.availableHints <;>
  simp only [addOutput, apply_ite State.delivered, ite_self]

theorem showHint_userProgress (data : HintResponse) (s : State) :
    (showHint data s).userProgress = s.userProgress := by
  unfold showHint
  cases data.availableHints <;>
  simp only [addOutput, apply_ite State.userProgress, ite_self]

theorem showHint_isLoggedIn (data : HintResponse) (s : State) :
    (showHint data s).isLoggedIn = s.isLoggedIn := by
  unfold showHint
  cases data.availableHints <;>
  simp only [addOutput, apply_ite State.isLoggedIn, ite_self]

theorem frame_startChallenge (env : Env) (s : State) : Frame s (startChallenge env s) := by
  unfold startChallenge
  cases hl : s.isLoggedIn
  · exact frame_addOutput _ _ _
  · cases hf : env.ctfQuestion (bearer s.token) with
    | error msg => simp [Frame, startChallengeCatch, addOutput, hf, hl]
    | ok data =>
      cases hp : s.userProgress <;> cases hs : data.success <;> cases hc : data.completed <;>
        simp [setStartTime, hp, hf, hs, hc, hl, addOutput, startChallengeCatch, Frame,
          showQuestion_commandHistory, showQuestion_historyIndex, showQuestion_localStorage,
          showQuestion_delivered, showQuestion_userProgress, showQuestion_isLoggedIn]

theorem frame_getHint (env : Env) (s : State) : Frame s (getHint env s) := by
  unfold getHint
  cases hl : s.isLoggedIn
  · exact frame_addOutput _ _ _
  · cases hf : env.ctfHint (bearer s.token) with
    | error msg => simp [Frame, getHintCatch, addOutput, hf, hl]
    | ok data =>
      cases hp : s.userProgress <;> cases ho : data.ok <;> cases hs : data.success <;>
        cases hc : data.completed <;>
        simp [setStartTime, hp, hf, ho, hs, hc, hl, addOutput, getHintCatch, Frame,
          showHint_commandHistory, showHint_historyIndex, showHint_localStorage,
          showHint_delivered, showHint_userProgress, showHint_isLoggedIn,
          apply_ite State.commandHistory, apply_ite State.historyIndex,
          apply_ite State.localStorage, apply_ite State.delivered,
          apply_ite State.userProgress, apply_ite State.isLoggedIn]

theorem frame_submitCommand (s : State) : Frame s (submitCommand s) := by
  unfold submitCommand
  split
  · split
    · exact frame_addOutput _ _ _
    · exact ⟨rfl, rfl, rfl, rfl, id⟩
  · exact frame_addOutput _ _ _

theorem frame_submitCommandFlag (env : Env) (flag : String) (s : State) :
    Frame s (submitCommandFlag env flag s) := by
  unfold submitCommandFlag
  by_cases he : flag = "" ∨ trim flag = ""
  · simp [he, Frame, addOutput, updatePrompt]
  · cases hf : env.ctfCheckFlag (bearer s.token) (trim flag) with
    | error msg => simp [Frame, submitCommandCatch, addOutput, updatePrompt, hf, he]
    | ok data =>
      cases hp : s.userProgress <;> cases hs : data.success <;> cases hc : data.completed <;>
        cases hi : data.isLastFlag <;>
        simp [setStartTime, submitAccepted, hp, hf, hs, hc, hi, he, addOutput, updatePrompt,
          submitCommandCatch, Frame]

theorem frame_getProgress (env : Env) (s : State) : Frame s (getProgress env s) := by
  unfold getProgress
  cases hl : s.isLoggedIn
  · exact frame_addOutput _ _ _
  · cases hf : env.authDetails (bearer s.token) with
    | error msg => simp [Frame, addOutput, hf, hl]
    | ok data =>
      cases ho : data.ok <;> cases hs : data.success <;>
        simp [hf, ho, hs, hl, addOutput, Frame]

theorem frame_showLeaderboard (env : Env) (s : State) : Frame s (showLeaderboard env s) := by
  unfold showLeaderboard
  cases hf : env.ctfLeaderboard with
  | error msg => simp [Frame, addOutput, hf]
  | ok data =>
    cases hs : data.success <;>
      simp [hf, hs, addOutput, Frame, apply_ite State.commandHistory,
        apply_ite State.historyIndex, apply_ite State.localStorage, apply_ite State.delivered,
        apply_ite State.userProgress, apply_ite State.isLoggedIn]

theorem frame_whoami (s : State) : Frame s (whoami s) := by
  unfold whoami
  split
  · exact frame_addOutput _ _ _
  · split
    · exact ⟨rfl, rfl, rfl, rfl, id⟩
    · exact Frame.refl s

/-! ## The interpreter -/

theorem dispatch_exit (env : Env) (command : String) (s : State)
    (hname : toLowerCase command = "exit") (hl : s.isLoggedIn = true) :
    dispatch env command s =
      addOutput "<span class=\"success\">✓ Logged out successfully.</span>\n" "success"
        { logout s with output := [] } := by
  unfold dispatch
  simp only [hname, hl]
  rfl

theorem frame_dispatch (env : Env) (command : String) (s : State)
    (h : ¬ (toLowerCase command = "exit" ∧ s.isLoggedIn = true)) :
    Frame s (dispatch env command s) := by
  unfold dispatch
  simp only []
  by_cases hn : toLowerCase command = "help"
  · rw [if_pos hn]
    exact frame_showHelp s
  rw [if_neg hn]
  clear hn
  by_cases hn : toLowerCase command = "login"
  · rw [if_pos hn]
    exact frame_handleLogin s
  rw [if_neg hn]
  clear hn
  by_cases hn : toLowerCase command = "task"
  · rw [if_pos hn]
    exact frame_startChallenge env s
  rw [if_neg hn]
  clear hn
  by_cases hn : toLowerCase command = "hint"
  · rw [if_pos hn]
    exact frame_getHint env s
  rw [if_neg hn]
  clear hn
  by_cases hn : toLowerCase command = "submit"
  · rw [if_pos hn]
    exact frame_submitCommand s
  rw [if_neg hn]
  clear hn
  by_cases hn : toLowerCase command = "leaderboard"
  · rw [if_pos hn]
    exact frame_showLeaderboard env s
  rw [if_neg hn]
  clear hn
  by_cases hn : toLowerCase command = "whoami"
  · rw [if_pos hn]
    exact frame_whoami s
  rw [if_neg hn]
  clear hn
  by_cases hn : toLowerCase command = "progress"
  · rw [if_pos hn]
    exact frame_getProgress env s
  rw [if_neg hn]
  clear hn
  by_cases hn : toLowerCase command = "clear"
  · rw [if_pos hn]
    exact ⟨rfl, rfl, rfl, rfl, id⟩
  rw [if_neg hn]
  clear hn
  by_cases hn : toLowerCase command = "banner"
  · rw [if_pos hn]
    exact frame_showBanner s
  rw [if_neg hn]
  clear hn
  by_cases hn : toLowerCase command = "exit"
  · rw [if_pos hn]
    have hl : ¬ s.isLoggedIn = true := fun hl => h ⟨hn, hl⟩
    rw [if_neg hl]
    exact frame_addOutput _ _ _
  rw [if_neg hn]
  clear hn
  by_cases hn : toLowerCase command = ""
  · rw [if_pos hn]
    exact Frame.refl s
  rw [if_neg hn]
  clear hn
  by_cases hn : toLowerCase command = "about"
  · rw [if_pos hn]
    exact ⟨rfl, rfl, rfl, rfl, id⟩
  rw [if_neg hn]
  clear hn
  exact ⟨rfl, rfl, rfl, rfl, id⟩

theorem dispatch_history (env : Env) (command : String) (s : State) :
    (dispatch env command s).commandHistory = s.commandHistory ∧
    (dispatch env command s).historyIndex = s.historyIndex ∧
    (dispatch env command s).delivered = s.delivered := by
  by_cases h : toLowerCase command = "exit" ∧ s.isLoggedIn = true
  · rw [dispatch_exit env command s h.1 h.2]
    exact ⟨rfl, rfl, rfl⟩
  · have hf := frame_dispatch env command s h
    exact ⟨hf.1, hf.2.1, hf.2.2.2.1⟩

theorem dispatch_unknown (env : Env) (command : String) (s : State)
    (hne : toLowerCase command ≠ "") (hun : toLowerCase command ∉ recognizedNames) :
    dispatch env command s =
      addOutput "Type <span class=\"command\">help</span> for available commands.\n" "info"
        (addOutput ("<span class=\"error\">Command not found: " ++ command ++ "</span>") "error" s) := by
  simp only [recognizedNames, List.mem_cons, List.mem_singleton, not_or, List.not_mem_nil,
    or_false] at hun
  obtain ⟨h1, h2, h3, h4, h5, h6, h7, h8, h9, h10, h11, h12⟩ := hun
  unfold dispatch
  simp only [h1, h2, h3, h4, h5, h6, h7, h8, h9, h10, h11, h12, hne, ↓reduceIte]

theorem recordCommand_history (cmd : String) (s : State) :
    (recordCommand cmd s).commandHistory =
      if trim cmd ≠ "" ∧ s.commandHistory.getLast? ≠ some cmd then s.commandHistory ++ [cmd]
      else s.commandHistory := by
  have hlast : (s.commandHistory.length = 0 ∨
      s.commandHistory[s.commandHistory.length - 1]? ≠ some cmd) ↔
      s.commandHistory.getLast? ≠ some cmd := by
    rw [List.getLast?_eq_getElem?]
    constructor
    · rintro (h | h)
      · rw [List.length_eq_zero] at h
        simp [h]
      · exact h
    · intro h
      exact Or.inr h
  unfold recordCommand
  simp only [hlast]
  split_ifs <;> rfl

theorem recordCommand_fields (cmd : String) (s : State) :
    (recordCommand cmd s).historyIndex = ((recordCommand cmd s).commandHistory.length : Int) ∧
    (recordCommand cmd s).localStorage.cmdHistory =
      some (jsonStringify (slice (recordCommand cmd s).commandHistory (-20))) ∧
    (recordCommand cmd s).localStorage.token = s.localStorage.token ∧
    (recordCommand cmd s).output = s.output ++ [echoLine cmd] ∧
    (recordCommand cmd s).token = s.token ∧
    (recordCommand cmd s).isLoggedIn = s.isLoggedIn ∧
    (recordCommand cmd s).currentUser = s.currentUser ∧
    (recordCommand cmd s).userProgress = s.userProgress ∧
    (recordCommand cmd s).awaitingInput = s.awaitingInput ∧
    (recordCommand cmd s).inputCallback = s.inputCallback ∧
    (recordCommand cmd s).requests = s.requests ∧
    (recordCommand cmd s).prompts = s.prompts ∧
    (recordCommand cmd s).delivered = s.delivered := by
  unfold recordCommand
  simp only []
  split_ifs <;> simp

theorem slice_last_twenty (xs : List String) :
    slice xs (-20) = xs.drop (xs.length - 20) := by
  unfold slice
  simp only [show ((-20 : Int) < 0) from by decide, ↓reduceIte]
  congr 1
  omega

theorem handleCommand_history (env : Env) (cmd : String) (s : State) :
    (handleCommand env cmd s).commandHistory = (recordCommand cmd s).commandHistory ∧
    (handleCommand env cmd s).historyIndex = (recordCommand cmd s).historyIndex :=
  ⟨(dispatch_history env _ _).1, (dispatch_history env _ _).2.1⟩

/-- C5, as stated, fails: the unknown command `foo` is recorded in the
history, moves the cursor and is written to storage; and the empty line,
whose command name is not a recognised one either, produces no "Command not
found" line at all. -/
theorem unknown_command_counterexample :
    (toLowerCase (commandOf "foo") ∉ recognizedNames ∧
      (handleCommand offlineEnv "foo" (init ⟨none, none⟩)).commandHistory = ["foo"] ∧
      (init ⟨none, none⟩).commandHistory = [] ∧
      (handleCommand offlineEnv "foo" (init ⟨none, none⟩)).historyIndex = 1 ∧
      (init ⟨none, none⟩).historyIndex = -1 ∧
      (handleCommand offlineEnv "foo" (init ⟨none, none⟩)).localStorage.cmdHistory =
        some "[\"foo\"]" ∧
      (init ⟨none, none⟩).localStorage.cmdHistory = none) ∧
    (toLowerCase (commandOf "") ∉ recognizedNames ∧
      (handleCommand offlineEnv "" (init ⟨none, none⟩)).output = [echoLine ""]) := by
  decide

/-- C5, amended: for every line whose command name is non-empty and not a
recognised one, `handleCommand` renders the echo, exactly one "Command not
found" error line naming the command and the hint to run `help`; it opens
no prompt and sends no request, and it leaves the session variables, the
pending-prompt slot and the stored token as they were. The history, the
cursor and the stored history are updated as for any dispatched line. -/
theorem unknown_command (env : Env) (cmd : String) (s : State)
    (hne : toLowerCase (commandOf cmd) ≠ "")
    (hun : toLowerCase (commandOf cmd) ∉ recognizedNames) :
    (handleCommand env cmd s).output =
      s.output ++ [echoLine cmd,
        Node.line ("<span class=\"error\">Command not found: " ++ commandOf cmd ++ "</span>") "error",
        Node.line "Type <span class=\"command\">help</span> for available commands.\n" "info"] ∧
    (handleCommand env cmd s).token = s.token ∧
    (handleCommand env cmd s).isLoggedIn = s.isLoggedIn ∧
    (handleCommand env cmd s).currentUser = s.currentUser ∧
    (handleCommand env cmd s).userProgress = s.userProgress ∧
    (handleCommand env cmd s).localStorage.token = s.localStorage.token ∧
    (handleCommand env cmd s).awaitingInput = s.awaitingInput ∧
    (handleCommand env cmd s).inputCallback = s.inputCallback ∧
    (handleCommand env cmd s).requests = s.requests ∧
    (handleCommand env cmd s).prompts = s.prompts ∧
    (handleCommand env cmd s).commandHistory =
      (if trim cmd ≠ "" ∧ s.commandHistory.getLast? ≠ some cmd then s.commandHistory ++ [cmd]
       else s.commandHistory) ∧
    (handleCommand env cmd s).historyIndex = ((handleCommand env cmd s).commandHistory.length : Int) ∧
    (handleCommand env cmd s).localStorage.cmdHistory =
      some (jsonStringify (slice (handleCommand env cmd s).commandHistory (-20))) := by
  obtain ⟨f1, f2, f3, f4, f5, f6, f7, f8, f9, f10, f11, f12, _⟩ := recordCommand_fields cmd s
  have hd : handleCommand env cmd s = _ := dispatch_unknown env (commandOf cmd) (recordCommand cmd s) hne hun
  rw [hd]
  simp only [addOutput, f4, ← recordCommand_history cmd s]
  refine ⟨by simp, f5, f6, f7, f8, f3, f9, f10, f11, f12, trivial, f1, f2⟩

theorem unknown_command_witness :
    (handleCommand offlineEnv "sudo rm" (init ⟨none, none⟩)).requests = [] :=
  (unknown_command offlineEnv "sudo rm" (init ⟨none, none⟩) (by decide) (by decide)).2.2.2.2.2.2.2.2.1

/-- C2, as stated, fails for a session that is not logged in: from the
reachable anonymous state left by a page load without network, `exit` keeps
the stored token and leaves the history it has just written in storage. -/
theorem exit_counterexample :
    Reachable staleTokenState ∧ staleTokenState.isLoggedIn = false ∧
    (handleCommand offlineEnv "exit" staleTokenState).localStorage =
      { token := some "tok", cmdHistory := some "[\"exit\"]" } :=
  ⟨Reachable.step offlineEnv Event.domContentLoaded _ (Reachable.init _), by decide, by decide⟩

/-- C2, amended: from every state with `isLoggedIn = true`, whatever the
session, the stored token and the stored history, the `exit` command leaves
`isLoggedIn = false`, `token = null`, no cached user or progress, and
neither the token nor the history in storage; `logout()` itself does so
from every state. With `isLoggedIn = false` the `exit` command does not log
out: it answers "Not logged in", keeps the session variables and the stored
token, and the history it has just written stays in storage. -/
theorem exit_logs_out (env : Env) (cmd : String) (s : State)
    (hname : toLowerCase (commandOf cmd) = "exit") :
    (s.isLoggedIn = true →
      (handleCommand env cmd s).isLoggedIn = false ∧
      (handleCommand env cmd s).token = none ∧
      (handleCommand env cmd s).currentUser = none ∧
      (handleCommand env cmd s).userProgress = none ∧
      (handleCommand env cmd s).localStorage.token = none ∧
      (handleCommand env cmd s).localStorage.cmdHistory = none) ∧
    (s.isLoggedIn = false →
      (handleCommand env cmd s).output =
        s.output ++ [echoLine cmd, Node.line "<span class=\"error\">✗ Not logged in.</span>\n" "error"] ∧
      (handleCommand env cmd s).isLoggedIn = false ∧
      (handleCommand env cmd s).token = s.token ∧
      (handleCommand env cmd s).currentUser = s.currentUser ∧
      (handleCommand env cmd s).userProgress = s.userProgress ∧
      (handleCommand env cmd s).localStorage.token = s.localStorage.token ∧
      (handleCommand env cmd s).localStorage.cmdHistory =
        some (jsonStringify (slice (handleCommand env cmd s).commandHistory (-20)))) ∧
    ((logout s).isLoggedIn = false ∧ (logout s).token = none ∧ (logout s).currentUser = none ∧
      (logout s).userProgress = none ∧ (logout s).localStorage.token = none ∧
      (logout s).localStorage.cmdHistory = none) := by
  obtain ⟨f1, f2, f3, f4, f5, f6, f7, f8, f9, f10, f11, f12, _⟩ := recordCommand_fields cmd s
  refine ⟨fun hl => ?_, fun hl => ?_, rfl, rfl, rfl, rfl, rfl, rfl⟩
  · have hd : handleCommand env cmd s = _ :=
      dispatch_exit env (commandOf cmd) (recordCommand cmd s) hname (f6.trans hl)
    rw [hd]
    exact ⟨rfl, rfl, rfl, rfl, rfl, rfl⟩
  · have hd : handleCommand env cmd s =
        addOutput "<span class=\"error\">✗ Not logged in.</span>\n" "error" (recordCommand cmd s) := by
      have hl2 : ¬ (recordCommand cmd s).isLoggedIn = true := by rw [f6, hl]; decide
      show dispatch env (commandOf cmd) (recordCommand cmd s) = _
      unfold dispatch
      simp only [hname, hl2]
      rfl
    rw [hd]
    simp only [addOutput, f4]
    exact ⟨by simp, f6.trans hl, f5, f7, f8, f3, f2⟩

theorem exit_logs_out_witness :
    (handleCommand serverEnv "exit" resumedState).localStorage =
      { token := none, cmdHistory := none } := by
  have h := (exit_logs_out serverEnv "exit" resumedState (by decide)).1 (by decide)
  have h5 := h.2.2.2.2.1
  have h6 := h.2.2.2.2.2
  cases hls : (handleCommand serverEnv "exit" resumedState).localStorage with
  | mk t c =>
    rw [hls] at h5 h6
    simp only at h5 h6
    rw [h5, h6]

/-! ## The history buffer -/

/-- C7: the value `handleCommand` writes under the history key is the JSON
text of the last `min 20 n` entries of the `n`-entry in-memory history, in
order, so of at most 20 entries; with 21 entries in memory it is all of
them but the oldest. The in-memory history is the one the dispatch leaves,
and the written value stays in storage to the end of the dispatch unless
the command is an `exit` that logs out. -/
theorem persisted_history_last_twenty (env : Env) (cmd : String) (s : State) :
    (recordCommand cmd s).localStorage.cmdHistory =
      some (jsonStringify (slice (recordCommand cmd s).commandHistory (-20))) ∧
    (slice (recordCommand cmd s).commandHistory (-20)).length ≤ 20 ∧
    (slice (recordCommand cmd s).commandHistory (-20)).length =
      min 20 (recordCommand cmd s).commandHistory.length ∧
    List.IsSuffix (slice (recordCommand cmd s).commandHistory (-20))
      (recordCommand cmd s).commandHistory ∧
    ((recordCommand cmd s).commandHistory.length = 21 →
      slice (recordCommand cmd s).commandHistory (-20) = (recordCommand cmd s).commandHistory.tail) ∧
    (handleCommand env cmd s).commandHistory = (recordCommand cmd s).commandHistory ∧
    (¬ (toLowerCase (commandOf cmd) = "exit" ∧ s.isLoggedIn = true) →
      (handleCommand env cmd s).localStorage.cmdHistory =
        some (jsonStringify (slice (handleCommand env cmd s).commandHistory (-20)))) := by
  obtain ⟨_, f2, _, _, _, f6, _⟩ := recordCommand_fields cmd s
  refine ⟨f2, ?_, ?_, ?_, ?_, (handleCommand_history env cmd s).1, ?_⟩
  · rw [slice_last_twenty, List.length_drop]; omega
  · rw [slice_last_twenty, List.length_drop]; omega
  · rw [slice_last_twenty]; exact List.drop_suffix _ _
  · intro h
    rw [slice_last_twenty, h]
    generalize (recordCommand cmd s).commandHistory = hist at h
    cases hist with
    | nil => simp at h
    | cons x xs => rfl
  · intro h
    rw [(handleCommand_history env cmd s).1, ← f2]
    have h2 : ¬ (toLowerCase (commandOf cmd) = "exit" ∧ (recordCommand cmd s).isLoggedIn = true) := by
      rw [f6]; exact h
    exact (frame_dispatch env (commandOf cmd) (recordCommand cmd s) h2).2.2.1

theorem persisted_history_last_twenty_witness :
    (handleCommand offlineEnv "c21"
        { init ⟨none, none⟩ with commandHistory := twentyOne.take 20 }).localStorage.cmdHistory =
      some (jsonStringify twentyOne.tail) :=
  ((persisted_history_last_twenty offlineEnv "c21"
      { init ⟨none, none⟩ with commandHistory := twentyOne.take 20 }).2.2.2.2.2.2
    (by decide)).trans (by decide)

theorem chain_append_of_getLast (xs : List String) (c : String)
    (hx : List.Chain' (fun a b => a ≠ b) xs) (hl : xs.getLast? ≠ some c) :
    List.Chain' (fun a b => a ≠ b) (xs ++ [c]) := by
  rw [List.chain'_append]
  refine ⟨hx, List.chain'_singleton c, ?_⟩
  intro x hxl y hy
  simp only [List.head?_cons, Option.mem_def, Option.some.injEq] at hy
  subst hy
  intro hxy
  subst hxy
  exact hl hxl

theorem recordCommand_chain (cmd : String) (s : State)
    (h : List.Chain' (fun a b => a ≠ b) s.commandHistory) :
    List.Chain' (fun a b => a ≠ b) (recordCommand cmd s).commandHistory := by
  rw [recordCommand_history]
  split
  · rename_i hc
    exact chain_append_of_getLast _ _ h hc.2
  · exact h

theorem dispatchAll_chain (cmds : List (Env × String)) : ∀ s : State,
    List.Chain' (fun a b => a ≠ b) s.commandHistory →
    List.Chain' (fun a b => a ≠ b) (dispatchAll cmds s).commandHistory := by
  induction cmds with
  | nil => intro s h; exact h
  | cons c rest ih =>
    intro s h
    show List.Chain' _ (dispatchAll rest (handleCommand c.1 c.2 s)).commandHistory
    apply ih
    rw [(handleCommand_history c.1 c.2 s).1]
    exact recordCommand_chain _ _ h

/-- C8: `handleCommand` appends the line to the history exactly when the line
is non-empty after trimming and differs from the last recorded entry (an
empty history has none), and otherwise leaves the history as it was; so a
second dispatch of the same line never adds an entry, and a history built
from the empty one by dispatches has no two equal adjacent entries. -/
theorem history_records_once (env : Env) (cmd : String) (s : State) :
    (handleCommand env cmd s).commandHistory =
      (if trim cmd ≠ "" ∧ s.commandHistory.getLast? ≠ some cmd then s.commandHistory ++ [cmd]
       else s.commandHistory) ∧
    ((handleCommand env cmd s).commandHistory = s.commandHistory ++ [cmd] ↔
      (trim cmd ≠ "" ∧ s.commandHistory.getLast? ≠ some cmd)) ∧
    ((handleCommand env cmd s).commandHistory = s.commandHistory ↔
      ¬ (trim cmd ≠ "" ∧ s.commandHistory.getLast? ≠ some cmd)) ∧
    (∀ env2 : Env, (handleCommand env2 cmd (handleCommand env cmd s)).commandHistory =
      (handleCommand env cmd s).commandHistory) ∧
    (∀ cmds : List (Env × String),
      List.Chain' (fun a b => a ≠ b)
        (dispatchAll cmds { s with commandHistory := [] }).commandHistory) := by
  have key := (handleCommand_history env cmd s).1.trans (recordCommand_history cmd s)
  refine ⟨key, ?_, ?_, ?_, ?_⟩
  · rw [key]
    split
    · rename_i h; simp [h]
    · rename_i h; simp [h]
  · rw [key]
    split
    · rename_i h; simp [h]
    · rename_i h; simp [h]
  · intro env2
    rw [(handleCommand_history env2 cmd _).1, recordCommand_history, key]
    by_cases h : trim cmd ≠ "" ∧ s.commandHistory.getLast? ≠ some cmd
    · simp [h]
    · simp only [if_neg h]
  · intro cmds
    exact dispatchAll_chain cmds _ List.chain'_nil

/-! ## The prompt slot -/

theorem addsStyled_of_drop (s t : State)
    (h1 : t.output.take s.output.length = s.output)
    (h2 : ∀ n ∈ t.output.drop s.output.length, isStyled n = true) : AddsStyled s t :=
  ⟨t.output.drop s.output.length,
    (List.take_append_drop s.output.length t.output).symm.trans (by rw [h1]), h2⟩

theorem addsStyled_handleLoginPassword (env : Env) (email password : String) (s : State) :
    AddsStyled s (handleLoginPassword env email password s) := by
  apply addsStyled_of_drop <;> unfold handleLoginPassword <;>
    cases hf : env.authLogin email password with
    | error msg => simp [addOutput, updatePrompt, isStyled]
    | ok data => cases hs : data.success <;> simp [addOutput, updatePrompt, isStyled, hs]

theorem addsStyled_submitCommandFlag (env : Env) (flag : String) (s : State) :
    AddsStyled s (submitCommandFlag env flag s) := by
  apply addsStyled_of_drop <;> unfold submitCommandFlag <;>
    by_cases he : flag = "" ∨ trim flag = ""
  · simp [he, addOutput, updatePrompt]
  · cases hf : env.ctfCheckFlag (bearer s.token) (trim flag) with
    | error msg => simp [submitCommandCatch, addOutput, updatePrompt, hf, he]
    | ok data =>
      cases hp : s.userProgress <;> cases hs : data.success <;> cases hc : data.completed <;>
        cases hi : data.isLastFlag <;>
        simp [setStartTime, submitAccepted, hp, hf, hs, hc, hi, he, addOutput, updatePrompt,
          submitCommandCatch]
  · simp [he, addOutput, updatePrompt, isStyled]
  · cases hf : env.ctfCheckFlag (bearer s.token) (trim flag) with
    | error msg => simp [submitCommandCatch, addOutput, updatePrompt, hf, he, isStyled]
    | ok data =>
      cases hp : s.userProgress <;> cases hs : data.success <;> cases hc : data.completed <;>
        cases hi : data.isLastFlag <;>
        simp [setStartTime, submitAccepted, hp, hf, hs, hc, hi, he, addOutput, updatePrompt,
          submitCommandCatch, isStyled]

theorem addsStyled_runCallback (env : Env) (callback : Callback) (line : String) (s : State) :
    AddsStyled s (runCallback env callback line s) := by
  cases callback with
  | loginEmail => exact ⟨[], by simp [runCallback, handleLoginEmail, waitForInput, updatePrompt], by simp⟩
  | loginPassword email => exact addsStyled_handleLoginPassword env email line _
  | submitFlag => exact addsStyled_submitCommandFlag env line _

theorem runCallback_frame (env : Env) (callback : Callback) (line : String) (s : State) :
    (runCallback env callback line s).commandHistory = s.commandHistory ∧
    (runCallback env callback line s).historyIndex = s.historyIndex ∧
    (runCallback env callback line s).localStorage.cmdHistory = s.localStorage.cmdHistory ∧
    (runCallback env callback line s).delivered = s.delivered ++ [line] ∧
    ((s.userProgress.isSome = true → s.isLoggedIn = true) →
      ((runCallback env callback line s).userProgress.isSome = true →
        (runCallback env callback line s).isLoggedIn = true)) := by
  have key : Frame { s with delivered := s.delivered ++ [line] } (runCallback env callback line s) := by
    cases callback with
    | loginEmail => exact frame_handleLoginEmail _ _
    | loginPassword email => exact frame_handleLoginPassword env email line _
    | submitFlag => exact frame_submitCommandFlag env line _
  exact key

theorem enter_pending (env : Env) (s : State) (callback : Callback)
    (hw : s.awaitingInput = true) (hk : s.inputCallback = some callback) :
    enter env s =
      runCallback env callback s.inputValue
        { s with inputValue := "", awaitingInput := false, inputCallback := none } := by
  unfold enter
  simp only [hw, hk]

/-- C6: with a prompt pending, the Enter handler hands the submitted line, and
nothing else, to the stored callback once, having cleared the flag and the
callback; the line is not treated as a command: the history, its cursor and
the stored history are unchanged, and whatever the resumed handler prints
is styled output, never the echo of a line. The resumed handler may ask for
its next line (the login asks for the password after the email), in which
case a new callback is stored; after the last prompt of a handler the slot
is empty. -/
theorem pending_prompt_takes_line (env : Env) (s : State) (callback : Callback)
    (hw : s.awaitingInput = true) (hk : s.inputCallback = some callback) :
    enter env s =
      runCallback env callback s.inputValue
        { s with inputValue := "", awaitingInput := false, inputCallback := none } ∧
    (enter env s).delivered = s.delivered ++ [s.inputValue] ∧
    (enter env s).commandHistory = s.commandHistory ∧
    (enter env s).historyIndex = s.historyIndex ∧
    (enter env s).localStorage.cmdHistory = s.localStorage.cmdHistory ∧
    (∃ added, (enter env s).output = s.output ++ added ∧ ∀ c, echoLine c ∉ added) ∧
    (callback = Callback.loginEmail →
      (enter env s).awaitingInput = true ∧
      (enter env s).inputCallback = some (Callback.loginPassword s.inputValue)) ∧
    (callback ≠ Callback.loginEmail →
      (enter env s).awaitingInput = false ∧ (enter env s).inputCallback = none) := by
  have he := enter_pending env s callback hw hk
  obtain ⟨f1, f2, f3, f4, _⟩ := runCallback_frame env callback s.inputValue
    { s with inputValue := "", awaitingInput := false, inputCallback := none }
  obtain ⟨added, ha, hs⟩ := addsStyled_runCallback env callback s.inputValue
    { s with inputValue := "", awaitingInput := false, inputCallback := none }
  rw [he]
  refine ⟨rfl, f4, f1, f2, f3, ⟨added, ha, fun c hc => ?_⟩, ?_, ?_⟩
  · have := hs _ hc
    simp [echoLine, isStyled] at this
  · intro hcb
    subst hcb
    exact ⟨rfl, rfl⟩
  · intro hcb
    cases callback with
    | loginEmail => exact absurd rfl hcb
    | loginPassword email =>
      simp only [runCallback, handleLoginPassword]
      cases hf : env.authLogin email s.inputValue with
      | error msg => simp [addOutput, updatePrompt]
      | ok data => cases hs : data.success <;> simp [addOutput, updatePrompt, hs]
    | submitFlag =>
      simp only [runCallback, submitCommandFlag]
      by_cases he : s.inputValue = "" ∨ trim s.inputValue = ""
      · simp [he, addOutput, updatePrompt]
      · cases hf : env.ctfCheckFlag (bearer s.token) (trim s.inputValue) with
        | error msg => simp [submitCommandCatch, addOutput, updatePrompt, hf, he]
        | ok data =>
          cases hp : s.userProgress <;> cases hs : data.success <;> cases hc : data.completed <;>
            cases hi : data.isLastFlag <;>
            simp [setStartTime, submitAccepted, hp, hf, hs, hc, hi, he, addOutput, updatePrompt,
              submitCommandCatch]

theorem pending_prompt_takes_line_witness :
    (enter serverEnv
      { handleCommand serverEnv "login" (init ⟨none, none⟩) with inputValue := "hunter2" }).commandHistory =
      ["login"] :=
  (pending_prompt_takes_line serverEnv
    { handleCommand serverEnv "login" (init ⟨none, none⟩) with inputValue := "hunter2" }
    Callback.loginEmail (by decide) (by decide)).2.2.1.trans (by decide)

/-! ## Reachable states -/

theorem restoreHistory_inv (env : Env) (s : State) :
    (CursorInRange s → CursorInRange (restoreHistory env s)) ∧
    (restoreHistory env s).userProgress = s.userProgress ∧
    (restoreHistory env s).isLoggedIn = s.isLoggedIn := by
  unfold restoreHistory
  cases s.localStorage.cmdHistory with
  | none => exact ⟨id, rfl, rfl⟩
  | some stored =>
    simp only []
    split
    · cases env.jsonParse stored with
      | none => exact ⟨id, rfl, rfl⟩
      | some v =>
        cases v with
        | other => exact ⟨id, rfl, rfl⟩
        | array parsed =>
          refine ⟨fun _ => Or.inr ⟨?_, ?_⟩, rfl, rfl⟩
          · exact Int.natCast_nonneg _
          · exact le_refl _
    · exact ⟨id, rfl, rfl⟩

theorem domContentLoaded_inv (env : Env) (s : State)
    (hc : CursorInRange s) (hp : s.userProgress.isSome = true → s.isLoggedIn = true) :
    CursorInRange (domContentLoaded env s) ∧
    ((domContentLoaded env s).userProgress.isSome = true →
      (domContentLoaded env s).isLoggedIn = true) := by
  unfold domContentLoaded
  have hb : (showBanner s).localStorage.token = s.localStorage.token := rfl
  simp only [hb]
  cases ht : s.localStorage.token with
  | none => exact ⟨hc, fun h => by simp [addOutput, logout] at h⟩
  | some storedToken =>
    simp only []
    by_cases he : storedToken = ""
    · rw [if_neg (by simpa using he)]
      exact ⟨hc, fun h => by simp [addOutput, logout] at h⟩
    · rw [if_pos he]
      cases hf : env.authDetails ("Bearer " ++ storedToken) with
      | error msg =>
        refine ⟨?_, ?_⟩
        · simpa [CursorInRange, authFailedLines, addOutput, showBanner,
            apply_ite State.commandHistory, apply_ite State.historyIndex] using hc
        · simpa [authFailedLines, addOutput, showBanner, apply_ite State.userProgress,
            apply_ite State.isLoggedIn] using hp
      | ok data =>
        by_cases hs : (data.ok && data.success) = true
        · simp only [hs, if_true]
          have hr := restoreHistory_inv env
            (addOutput ("Logged in as <b>" ++ data.user.emailID ++ "</b>") "success"
              { (addOutput "Authenticating..." "" (showBanner s)) with
                inputDisabled := true,
                requests := (addOutput "Authenticating..." "" (showBanner s)).requests ++
                  [Request.getDetails ("Bearer " ++ storedToken)],
                token := some storedToken, isLoggedIn := true, currentUser := some data.user,
                userProgress := some data.ctfProgress })
          refine ⟨hr.1 hc, fun _ => ?_⟩
          exact hr.2.2
        · simp only [hs]
          exact ⟨hc, fun h => by simp [authFailedLines, addOutput, logout] at h⟩

theorem arrowUp_cursor (s : State) (hc : CursorInRange s) : CursorInRange (arrowUp s) := by
  unfold arrowUp
  split
  · rename_i h
    rcases hc with hc | hc
    · omega
    · refine Or.inr ⟨?_, ?_⟩
      · show 0 ≤ s.historyIndex - 1
        omega
      · show s.historyIndex - 1 ≤ (s.commandHistory.length : Int)
        omega
  · exact hc

theorem arrowDown_cursor (s : State) (hc : CursorInRange s) : CursorInRange (arrowDown s) := by
  unfold arrowDown
  split
  · rename_i h
    refine Or.inr ⟨?_, ?_⟩
    · show 0 ≤ s.historyIndex + 1
      rcases hc with hc | hc <;> omega
    · show s.historyIndex + 1 ≤ (s.commandHistory.length : Int)
      omega
  · exact Or.inr ⟨Int.natCast_nonneg _, le_refl _⟩

theorem handleCommand_cursor (env : Env) (cmd : String) (s : State) :
    CursorInRange (handleCommand env cmd s) := by
  refine Or.inr ⟨?_, ?_⟩
  · rw [(handleCommand_history env cmd s).2, (recordCommand_fields cmd s).1]
    exact Int.natCast_nonneg _
  · rw [(handleCommand_history env cmd s).2, (handleCommand_history env cmd s).1,
      (recordCommand_fields cmd s).1]

theorem handleCommand_progress (env : Env) (cmd : String) (s : State)
    (hp : s.userProgress.isSome = true → s.isLoggedIn = true) :
    (handleCommand env cmd s).userProgress.isSome = true →
      (handleCommand env cmd s).isLoggedIn = true := by
  obtain ⟨_, _, _, _, _, f6, _, f8, _⟩ := recordCommand_fields cmd s
  by_cases h : toLowerCase (commandOf cmd) = "exit" ∧ (recordCommand cmd s).isLoggedIn = true
  · have hd : handleCommand env cmd s = _ :=
      dispatch_exit env (commandOf cmd) (recordCommand cmd s) h.1 h.2
    rw [hd]
    intro hx
    simp [addOutput, logout] at hx
  · exact (frame_dispatch env (commandOf cmd) (recordCommand cmd s) h).2.2.2.2
      (by rw [f6, f8]; exact hp)

theorem enter_inv (env : Env) (s : State)
    (hc : CursorInRange s) (hp : s.userProgress.isSome = true → s.isLoggedIn = true) :
    CursorInRange (enter env s) ∧
    ((enter env s).userProgress.isSome = true → (enter env s).isLoggedIn = true) := by
  by_cases hw : s.awaitingInput = true ∧ ∃ callback, s.inputCallback = some callback
  · obtain ⟨hw, callback, hk⟩ := hw
    rw [enter_pending env s callback hw hk]
    obtain ⟨f1, f2, _, _, f5⟩ := runCallback_frame env callback s.inputValue
      { s with inputValue := "", awaitingInput := false, inputCallback := none }
    refine ⟨?_, f5 hp⟩
    unfold CursorInRange
    rw [f1, f2]
    exact hc
  · have he : enter env s = handleCommand env s.inputValue { s with inputValue := "" } := by
      unfold enter
      cases ha : s.awaitingInput <;> cases hk : s.inputCallback <;> simp_all
    rw [he]
    exact ⟨handleCommand_cursor _ _ _, handleCommand_progress _ _ _ hp⟩

theorem step_inv (env : Env) (e : Event) (s : State)
    (hc : CursorInRange s) (hp : s.userProgress.isSome = true → s.isLoggedIn = true) :
    CursorInRange (step env e s) ∧
    ((step env e s).userProgress.isSome = true → (step env e s).isLoggedIn = true) := by
  cases e with
  | domContentLoaded => exact domContentLoaded_inv env s hc hp
  | arrowUp =>
    refine ⟨arrowUp_cursor s hc, ?_⟩
    show (arrowUp s).userProgress.isSome = true → (arrowUp s).isLoggedIn = true
    unfold arrowUp
    split
    · exact hp
    · exact hp
  | arrowDown =>
    refine ⟨arrowDown_cursor s hc, ?_⟩
    show (arrowDown s).userProgress.isSome = true → (arrowDown s).isLoggedIn = true
    unfold arrowDown
    split
    · exact hp
    · exact hp
  | enter => exact enter_inv env s hc hp
  | typed text => exact ⟨hc, hp⟩

theorem reachable_inv (s : State) (h : Reachable s) :
    CursorInRange s ∧ (s.userProgress.isSome = true → s.isLoggedIn = true) := by
  induction h with
  | init ls => exact ⟨Or.inl ⟨rfl, rfl⟩, fun h => by simp [init] at h⟩
  | step env e s _ ih => exact step_inv env e s ih.1 ih.2

theorem reachable_run (evs : List (Env × Event)) : ∀ s : State, Reachable s →
    Reachable (run evs s) := by
  induction evs with
  | nil => intro s h; exact h
  | cons ev rest ih => intro s h; exact ih _ (Reachable.step ev.1 ev.2 s h)

theorem arrayGet_inside (xs : List String) (i : Int) (h0 : 0 ≤ i) (h1 : i < (xs.length : Int)) :
    ∃ v, arrayGet xs i = some v := by
  unfold arrayGet
  rw [if_neg (by omega)]
  have hlt : i.toNat < xs.length := by omega
  exact ⟨xs[i.toNat], List.getElem?_eq_getElem hlt⟩

/-- C9, as stated, fails in the initial state: the script starts the cursor
at `-1`, and it is still `-1` after the page has loaded and after an
`ArrowUp`. -/
theorem cursor_counterexample :
    Reachable (init ⟨none, none⟩) ∧ ¬ (0 ≤ (init ⟨none, none⟩).historyIndex) ∧
    Reachable (run [(offlineEnv, Event.domContentLoaded), (offlineEnv, Event.arrowUp)]
      (init ⟨none, none⟩)) ∧
    (run [(offlineEnv, Event.domContentLoaded), (offlineEnv, Event.arrowUp)]
      (init ⟨none, none⟩)).historyIndex = -1 :=
  ⟨Reachable.init _, by decide, reachable_run _ _ (Reachable.init _), by decide⟩

/-- C9, amended: in every reachable state either the cursor is `-1` and the
history is empty (the values the script starts with), or
`0 <= historyIndex <= commandHistory.length`; and whenever `ArrowUp` or
`ArrowDown` loads an entry into the edit line, the index it moves to and
reads is at least `0` and strictly below `commandHistory.length`, so the
entry exists. -/
theorem cursor_in_range (s : State) (h : Reachable s) :
    ((s.historyIndex = -1 ∧ s.commandHistory = []) ∨
      (0 ≤ s.historyIndex ∧ s.historyIndex ≤ (s.commandHistory.length : Int))) ∧
    (s.commandHistory.length > 0 ∧ s.historyIndex > 0 →
      (arrowUp s).historyIndex = s.historyIndex - 1 ∧
      0 ≤ (arrowUp s).historyIndex ∧
      (arrowUp s).historyIndex < (s.commandHistory.length : Int) ∧
      ∃ v, arrayGet s.commandHistory (arrowUp s).historyIndex = some v ∧
        (arrowUp s).inputValue = v) ∧
    (s.historyIndex < (s.commandHistory.length : Int) - 1 →
      (arrowDown s).historyIndex = s.historyIndex + 1 ∧
      0 ≤ (arrowDown s).historyIndex ∧
      (arrowDown s).historyIndex < (s.commandHistory.length : Int) ∧
      ∃ v, arrayGet s.commandHistory (arrowDown s).historyIndex = some v ∧
        (arrowDown s).inputValue = v) := by
  have hc := (reachable_inv s h).1
  refine ⟨hc, fun hg => ?_, fun hg => ?_⟩
  · have hu : arrowUp s =
        { s with
          historyIndex := s.historyIndex - 1,
          inputValue := inputValueOf (arrayGet s.commandHistory (s.historyIndex - 1)) } := by
      unfold arrowUp
      rw [if_pos hg]
    have h0 : 0 ≤ s.historyIndex - 1 := by omega
    have h1 : s.historyIndex - 1 < (s.commandHistory.length : Int) := by
      rcases hc with hc | hc <;> omega
    obtain ⟨v, hv⟩ := arrayGet_inside s.commandHistory _ h0 h1
    rw [hu]
    exact ⟨rfl, h0, h1, v, hv, by simp only [hv]; rfl⟩
  · have hd : arrowDown s =
        { s with
          historyIndex := s.historyIndex + 1,
          inputValue := inputValueOf (arrayGet s.commandHistory (s.historyIndex + 1)) } := by
      unfold arrowDown
      rw [if_pos hg]
    have h0 : 0 ≤ s.historyIndex + 1 := by
      rcases hc with hc | hc <;> omega
    have h1 : s.historyIndex + 1 < (s.commandHistory.length : Int) := by omega
    obtain ⟨v, hv⟩ := arrayGet_inside s.commandHistory _ h0 h1
    rw [hd]
    exact ⟨rfl, h0, h1, v, hv, by simp only [hv]; rfl⟩

theorem cursor_in_range_witness :
    (freshLoginState.historyIndex = -1 ∧ freshLoginState.commandHistory = []) ∨
      (0 ≤ freshLoginState.historyIndex ∧
        freshLoginState.historyIndex ≤ (freshLoginState.commandHistory.length : Int)) :=
  (cursor_in_range freshLoginState (reachable_run _ _ (Reachable.init _))).1

/-! ## `submit` -/

/-- C3: in every session of the program whose cached progress has
`currentQuestionStartTime = null`, `submit` prints the error "You are not
currently solving a task" and does nothing else: `submitCommand` changes no
variable, opens no prompt and sends no request, and the `submit` command as
a whole leaves the session variables, the prompt slot and the stored token
as they were. -/
theorem submit_without_open_task (env : Env) (cmd : String) (s : State)
    (progress : CTFProgress) (hr : Reachable s) (hp : s.userProgress = some progress)
    (hn : progress.currentQuestionStartTime = none)
    (hname : toLowerCase (commandOf cmd) = "submit") :
    submitCommand s = addOutput "You are not currently solving a task" "error" s ∧
    (submitCommand s).prompts = s.prompts ∧
    (submitCommand s).requests = s.requests ∧
    (handleCommand env cmd s).output =
      s.output ++ [echoLine cmd, Node.line "You are not currently solving a task" "error"] ∧
    (handleCommand env cmd s).prompts = s.prompts ∧
    (handleCommand env cmd s).requests = s.requests ∧
    (handleCommand env cmd s).awaitingInput = s.awaitingInput ∧
    (handleCommand env cmd s).inputCallback = s.inputCallback ∧
    (handleCommand env cmd s).token = s.token ∧
    (handleCommand env cmd s).isLoggedIn = s.isLoggedIn ∧
    (handleCommand env cmd s).currentUser = s.currentUser ∧
    (handleCommand env cmd s).userProgress = s.userProgress ∧
    (handleCommand env cmd s).localStorage.token = s.localStorage.token := by
  have hl : s.isLoggedIn = true := (reachable_inv s hr).2 (by simp [hp])
  have hsub : ∀ t : State, t.isLoggedIn = true → t.userProgress = some progress →
      submitCommand t = addOutput "You are not currently solving a task" "error" t := by
    intro t h1 h2
    unfold submitCommand
    simp only [h1, h2, hn, if_true]
  obtain ⟨_, _, f3, f4, f5, f6, f7, f8, f9, f10, f11, f12, _⟩ := recordCommand_fields cmd s
  have hd : handleCommand env cmd s = submitCommand (recordCommand cmd s) := by
    show dispatch env (commandOf cmd) (recordCommand cmd s) = _
    unfold dispatch
    simp only [hname]
    rfl
  rw [hd, hsub (recordCommand cmd s) (f6.trans hl) (f8.trans hp), hsub s hl hp]
  simp only [addOutput, f4]
  exact ⟨trivial, trivial, trivial, by simp, f12, f11, f9, f10, f5, f6, f7, f8, f3⟩

theorem submit_without_open_task_witness :
    submitCommand resumedState =
      addOutput "You are not currently solving a task" "error" resumedState :=
  (submit_without_open_task serverEnv "submit" resumedState sampleProgress
    (Reachable.step serverEnv Event.domContentLoaded _ (Reachable.init _))
    (by decide) (by decide) (by decide)).1

/-! ## `login` -/

theorem handleCommand_login (env : Env) (cmd : String) (s : State)
    (hname : toLowerCase (commandOf cmd) = "login") (hanon : s.isLoggedIn = false) :
    handleCommand env cmd s =
      waitForInput Callback.loginEmail "Email:"
        (addOutput
          "Login with your <a class='link' href='https://www.codingclubtkmce.in/login' target='_blank'>Coding Club</a> account:"
          "info" (recordCommand cmd s)) := by
  have hl : ¬ (recordCommand cmd s).isLoggedIn = true := by
    rw [(recordCommand_fields cmd s).2.2.2.2.2.1, hanon]
    decide
  show dispatch env (commandOf cmd) (recordCommand cmd s) = _
  unfold dispatch
  simp only [hname]
  show handleLogin (recordCommand cmd s) = _
  unfold handleLogin
  rw [if_neg hl]

theorem enter_loginEmail (env : Env) (s : State) (line : String)
    (hw : s.awaitingInput = true) (hk : s.inputCallback = some Callback.loginEmail) :
    enter env { s with inputValue := line } =
      handleLoginEmail line
        { s with inputValue := "", awaitingInput := false, inputCallback := none,
                 delivered := s.delivered ++ [line] } := by
  rw [enter_pending env { s with inputValue := line } Callback.loginEmail hw hk]
  rfl

theorem enter_loginPassword (env : Env) (s : State) (email line : String)
    (hw : s.awaitingInput = true) (hk : s.inputCallback = some (Callback.loginPassword email)) :
    enter env { s with inputValue := line } =
      handleLoginPassword env email line
        { s with inputValue := "", awaitingInput := false, inputCallback := none,
                 delivered := s.delivered ++ [line] } := by
  rw [enter_pending env { s with inputValue := line } (Callback.loginPassword email) hw hk]
  rfl

theorem handleLoginPassword_trace (env : Env) (email password : String) (t : State) :
    (handleLoginPassword env email password t).prompts = t.prompts ∧
    (handleLoginPassword env email password t).requests =
      t.requests ++ [Request.postLogin email password] ∧
    (handleLoginPassword env email password t).awaitingInput = t.awaitingInput ∧
    (handleLoginPassword env email password t).inputCallback = t.inputCallback ∧
    (handleLoginPassword env email password t).inputType = "text" := by
  unfold handleLoginPassword
  cases hf : env.authLogin email password with
  | error msg => simp [updatePrompt, addOutput]
  | ok data => cases hs : data.success <;> simp [updatePrompt, addOutput, hs]

theorem handleLoginPassword_accepted (env : Env) (email password : String) (t : State)
    (data : LoginResponse) (hf : env.authLogin email password = Except.ok data)
    (hs : data.success = true) :
    (handleLoginPassword env email password t).token = some data.token ∧
    (handleLoginPassword env email password t).localStorage.token = some data.token ∧
    (handleLoginPassword env email password t).isLoggedIn = true ∧
    (handleLoginPassword env email password t).currentUser = some data.user := by
  unfold handleLoginPassword
  rw [hf]
  simp [updatePrompt, addOutput, hs]

theorem handleLoginPassword_rejected (env : Env) (email password : String) (t : State)
    (data : LoginResponse) (hf : env.authLogin email password = Except.ok data)
    (hs : data.success = false) :
    (handleLoginPassword env email password t).token = t.token ∧
    (handleLoginPassword env email password t).isLoggedIn = t.isLoggedIn ∧
    (handleLoginPassword env email password t).currentUser = t.currentUser ∧
    (handleLoginPassword env email password t).userProgress = t.userProgress ∧
    (handleLoginPassword env email password t).localStorage.token = t.localStorage.token ∧
    (handleLoginPassword env email password t).output = t.output ++
      [Node.line "Validating credentials...\n" "info",
       Node.line ("<span class=\"error\">✗ " ++ data.message ++ "</span>\n") "error"] := by
  unfold handleLoginPassword
  rw [hf]
  simp [updatePrompt, addOutput, hs]

/-- C1: from every session with `isLoggedIn = false`, for every two lines
typed at the prompts, the `login` command asks for exactly two lines, the
email and then the password, and sends exactly one request, the POST to
`/auth/login` with those two lines. If the response has `success = true`,
then `token` is the token of the response, the same token is stored under
the token key, `isLoggedIn` is true and `currentUser` is the user of the
response. If it has `success = false`, then `token`, `isLoggedIn`,
`currentUser`, `userProgress` and the stored token are as before the
command and the message of the server is printed as an error line. -/
theorem login_dialogue (env0 env1 env2 : Env) (cmd email password : String)
    (s s1 s2 s3 : State)
    (hname : toLowerCase (commandOf cmd) = "login") (hanon : s.isLoggedIn = false)
    (h1 : s1 = handleCommand env0 cmd s)
    (h2 : s2 = enter env1 { s1 with inputValue := email })
    (h3 : s3 = enter env2 { s2 with inputValue := password }) :
    (s1.prompts = s.prompts ++ ["Email:"] ∧ s1.requests = s.requests ∧
      s1.awaitingInput = true ∧ s1.inputCallback = some Callback.loginEmail) ∧
    (s2.prompts = s.prompts ++ ["Email:", "Password:"] ∧ s2.requests = s.requests ∧
      s2.awaitingInput = true ∧ s2.inputCallback = some (Callback.loginPassword email) ∧
      s2.inputType = "password") ∧
    (s3.prompts = s.prompts ++ ["Email:", "Password:"] ∧
      s3.requests = s.requests ++ [Request.postLogin email password] ∧
      s3.awaitingInput = false ∧ s3.inputCallback = none ∧ s3.inputType = "text") ∧
    (∀ data, env2.authLogin email password = Except.ok data → data.success = true →
      s3.token = some data.token ∧ s3.localStorage.token = some data.token ∧
      s3.isLoggedIn = true ∧ s3.currentUser = some data.user) ∧
    (∀ data, env2.authLogin email password = Except.ok data → data.success = false →
      s3.token = s.token ∧ s3.isLoggedIn = false ∧ s3.currentUser = s.currentUser ∧
      s3.userProgress = s.userProgress ∧ s3.localStorage.token = s.localStorage.token ∧
      s3.output = s2.output ++
        [Node.line "Validating credentials...\n" "info",
         Node.line ("<span class=\"error\">✗ " ++ data.message ++ "</span>\n") "error"]) := by
  obtain ⟨_, _, f3, _, f5, f6, f7, f8, _, _, f11, f12, _⟩ := recordCommand_fields cmd s
  rw [handleCommand_login env0 cmd s hname hanon] at h1
  generalize recordCommand cmd s = r at h1 f3 f5 f6 f7 f8 f11 f12
  have p1 : s1.prompts = s.prompts ++ ["Email:"] := by
    rw [h1]
    show r.prompts ++ ["Email:"] = _
    rw [f12]
  have q1 : s1.requests = s.requests := by rw [h1]; exact f11
  have w1 : s1.awaitingInput = true := by rw [h1]; rfl
  have k1 : s1.inputCallback = some Callback.loginEmail := by rw [h1]; rfl
  have e2 := (enter_loginEmail env1 s1 email w1 k1).symm.trans h2.symm
  have p2 : s2.prompts = s.prompts ++ ["Email:", "Password:"] := by
    rw [← e2]
    show s1.prompts ++ ["Password:"] = _
    rw [p1]
    simp
  have q2 : s2.requests = s.requests := by rw [← e2]; exact q1
  have w2 : s2.awaitingInput = true := by rw [← e2]; rfl
  have k2 : s2.inputCallback = some (Callback.loginPassword email) := by rw [← e2]; rfl
  have t2 : s2.inputType = "password" := by rw [← e2]; rfl
  have e3 := (enter_loginPassword env2 s2 email password w2 k2).symm.trans h3.symm
  have fields2 : s2.token = s.token ∧ s2.isLoggedIn = s.isLoggedIn ∧
      s2.currentUser = s.currentUser ∧ s2.userProgress = s.userProgress ∧
      s2.localStorage.token = s.localStorage.token := by
    rw [← e2, h1]
    exact ⟨f5, f6, f7, f8, f3⟩
  obtain ⟨g1, g2, g3, g4, g5⟩ := fields2
  obtain ⟨tr1, tr2, tr3, tr4, tr5⟩ := handleLoginPassword_trace env2 email password
    { s2 with inputValue := "", awaitingInput := false, inputCallback := none,
              delivered := s2.delivered ++ [password] }
  rw [e3] at tr1 tr2 tr3 tr4 tr5
  refine ⟨⟨p1, q1, w1, k1⟩, ⟨p2, q2, w2, k2, t2⟩, ⟨tr1.trans p2, ?_, tr3, tr4, tr5⟩, ?_, ?_⟩
  · rw [tr2]
    show s2.requests ++ _ = _
    rw [q2]
  · intro data hf hs
    have h := handleLoginPassword_accepted env2 email password
      { s2 with inputValue := "", awaitingInput := false, inputCallback := none,
                delivered := s2.delivered ++ [password] } data hf hs
    rw [e3] at h
    exact h
  · intro data hf hs
    have h := handleLoginPassword_rejected env2 email password
      { s2 with inputValue := "", awaitingInput := false, inputCallback := none,
                delivered := s2.delivered ++ [password] } data hf hs
    rw [e3] at h
    obtain ⟨r1, r2, r3, r4, r5, r6⟩ := h
    exact ⟨r1.trans g1, r2.trans (g2.trans hanon), r3.trans g3, r4.trans g4, r5.trans g5, r6⟩

theorem login_dialogue_witness :
    (enter rejectingEnv
        { enter rejectingEnv
            { handleCommand rejectingEnv "login" (init ⟨none, none⟩) with
              inputValue := "ada@example.org" } with
          inputValue := "wrong" }).requests =
      [Request.postLogin "ada@example.org" "wrong"] :=
  (login_dialogue rejectingEnv rejectingEnv rejectingEnv "login" "ada@example.org" "wrong"
    (init ⟨none, none⟩) _ _ _ (by decide) (by decide) rfl rfl rfl).2.2.1.2.1

/-! ## `task` and `submit` over a cached progress -/

theorem startChallenge_open_question (env : Env) (s : State) (progress : CTFProgress)
    (data : QuestionResponse) (hl : s.isLoggedIn = true) (hp : s.userProgress = some progress)
    (hf : env.ctfQuestion (bearer s.token) = Except.ok data) (hs : data.success = true)
    (hc : data.completed = false) :
    (startChallenge env s).userProgress =
      some { progress with currentQuestionStartTime := some env.now } ∧
    (submitCommand (startChallenge env s)).inputCallback = some Callback.submitFlag := by
  have hu : (startChallenge env s).userProgress =
      some { progress with currentQuestionStartTime := some env.now } := by
    unfold startChallenge
    simp [hl, hp, hf, hs, hc, setStartTime, addOutput, showQuestion_userProgress]
  have hi : (startChallenge env s).isLoggedIn = true := by
    unfold startChallenge
    simp [hl, hp, hf, hs, hc, setStartTime, addOutput, showQuestion_isLoggedIn]
  refine ⟨hu, ?_⟩
  unfold submitCommand
  simp [hu, hi, waitForInput, updatePrompt]

theorem submitCommandFlag_accepted (env : Env) (flag : String) (s : State)
    (progress : CTFProgress) (data : CheckFlagResponse) (hp : s.userProgress = some progress)
    (hne : ¬ (flag = "" ∨ trim flag = ""))
    (hf : env.ctfCheckFlag (bearer s.token) (trim flag) = Except.ok data)
    (hs : data.success = true) :
    (submitCommandFlag env flag s).userProgress =
      some { progress with currentQuestionStartTime := none } := by
  unfold submitCommandFlag
  cases hc : data.completed <;> cases hi : data.isLastFlag <;>
    simp [setStartTime, submitAccepted, hp, hf, hs, hc, hi, hne, addOutput, updatePrompt]

/-! ## `task` after `login` -/

/-- C4 fails on the code for a session opened by the `login` command: the
command sets no progress record, so when `task` then receives an open
question, storing the start time throws, the question is not printed and the
progress stays `null`; the next `submit` answers "Please login first" and
opens no flag prompt. A session resumed at page load has a progress record,
and there the same `task` stores the start time and `submit` reaches the
flag prompt. -/
theorem task_after_login_stores_no_start_time :
    Reachable freshLoginState ∧ freshLoginState.isLoggedIn = true ∧
    freshLoginState.userProgress = none ∧
    (handleCommand serverEnv "task" freshLoginState).userProgress = none ∧
    (handleCommand serverEnv "task" freshLoginState).output =
      freshLoginState.output ++
        [echoLine "task", Node.line "Fetching task from server...\n" "info",
         Node.line ("<span class=\"error\">✗ Failed to fetch question: " ++ v8TypeError ++
           "</span>\n") "error"] ∧
    (handleCommand serverEnv "submit"
        (handleCommand serverEnv "task" freshLoginState)).output.getLast? =
      some (Node.line "<span class=\"error\">✗ Please login first.</span>\n" "error") ∧
    (handleCommand serverEnv "submit"
        (handleCommand serverEnv "task" freshLoginState)).awaitingInput = false ∧
    (handleCommand serverEnv "task" resumedState).userProgress =
      some { sampleProgress with currentQuestionStartTime := some serverEnv.now } ∧
    (handleCommand serverEnv "submit"
        (handleCommand serverEnv "task" resumedState)).inputCallback =
      some Callback.submitFlag :=
  ⟨reachable_run _ _ (Reachable.init _), by decide, by decide, by decide, by decide, by decide,
    by decide, by decide, by decide⟩

end CtfTerminal
